import Mathlib

/-! # determine-wallet-ownership: the relationship classification engine

A shallow embedding of `src/index.js` (functions `checkAddresses`,
`analyzeTransaction` and the pair loop of `main`) together with the properties
proved about it.

Modelling conventions.

* A JavaScript value that the code treats as an address is an `Option String`:
  `none` stands for `undefined`/`null`, `some s` for the string `s`.
  A value is *truthy* when it is a non-empty string.
* A computation that may throw has type `Throws α`; `try { .. } catch (ex) {}`
  is modelled by `tryCatch`, which turns a throw into "fall through".
* What the program obtains from outside (the string method `toLowerCase`, the
  three `ethers` interfaces built from the ABI files, the history provider) is
  passed in explicitly, so every statement holds for all of them.
* The verdict strings and the keys of the `analysis` object are kept as the
  literal strings of the source.
-/

namespace WalletOwnership

/-! ## Data model -/

/-- A computation that either returns a value or throws; the program never
inspects the thrown value. -/
abbrev Throws (α : Type) := Except Unit α

deriving instance DecidableEq for Except

/-- The fields of a provider transaction that the program reads. -/
structure Transaction where
  from_ : Option String
  to_ : Option String
  data : String
  value : Nat

/-- The result of `Interface.parseTransaction`: the name of the decoded function
and its arguments by name (`none` when the argument does not exist). -/
structure TransactionDescription where
  name : String
  args : String → Option String

/-- An `ethers.utils.Interface`: `parseTransaction` applied to `data` and `value`
throws, returns `null` (`none`) or returns a description. -/
structure Interface where
  parseTransaction : String → Nat → Throws (Option TransactionDescription)

/-- Everything the module takes from its surroundings: the string method
`toLowerCase` and the three module-level interfaces. -/
structure Runtime where
  toLowerCase : String → String
  erc1155Interface : Interface
  erc20Interface : Interface
  erc721Interface : Interface

/-- JavaScript truthiness of an address value: a non-empty string. -/
def truthy : Option String → Bool
  | none => false
  | some s => decide (s ≠ "")

/-- The expression `a || b` on address values: `a` when it is truthy, else `b`. -/
def jsOr (a : Option String) (b : Option String) : Option String :=
  if truthy a then a else b

/-- The method call `x.toLowerCase()`: throws a TypeError when `x` is undefined. -/
def lower (rt : Runtime) : Option String → Throws String
  | none => throw ()
  | some s => pure (rt.toLowerCase s)

/-- The comparison `a === b` of two evaluated operands, left operand first. -/
def strictEq (a b : Throws String) : Throws Bool :=
  a >>= fun x => b >>= fun y => pure (decide (x = y))

/-- The short-circuit conjunction `a && b`: `b` is evaluated only when `a` is true. -/
def jsAnd (a b : Throws Bool) : Throws Bool :=
  a >>= fun x => if x then b else pure false

/-! ## checkAddresses (index.js, lines 131-145) -/

/-- The function `checkAddresses(thisAddress, otherAddress, from, to, type)`.
The result `none` is the JavaScript `false`. -/
def checkAddresses (rt : Runtime) (thisAddress otherAddress from_ to_ : Option String)
    (type : String) : Throws (Option String) :=
  let _unused := type
  jsAnd (strictEq (lower rt thisAddress) (lower rt from_))
        (strictEq (lower rt otherAddress) (lower rt to_)) >>= fun c1 =>
  if c1 then pure (some "send-to")
  else
    jsAnd (strictEq (lower rt otherAddress) (lower rt from_))
          (strictEq (lower rt thisAddress) (lower rt to_)) >>= fun c2 =>
    if c2 then pure (some "sent-from")
    else pure none

/-! ## analyzeTransaction (index.js, lines 91-129) -/

/-- The statement `try { body } catch (ex) {}` where `body` ends with
`if (result) return result;`: the value `some r` means that the function returns
`r`, the value `none` that control falls through to the next statement. -/
def tryCatch (body : Throws (Option String)) : Option String :=
  match body with
  | .ok r => r
  | .error _ => none

/-- The body of the first `try` block (lines 103-107). -/
def erc1155Block (rt : Runtime) (tx : Transaction) (thisAddress otherAddress : Option String) :
    Throws (Option String) :=
  rt.erc1155Interface.parseTransaction tx.data tx.value >>= fun parsed =>
  match parsed with
  | none => throw ()
  | some decodedData =>
    if decodedData.name = "safeTransferFrom" ∨ decodedData.name = "safeBatchTransferFrom" then
      checkAddresses rt thisAddress otherAddress
        (decodedData.args "_from") (decodedData.args "_to") "1155"
    else pure none

/-- The body of the second `try` block (lines 111-115). -/
def erc20Block (rt : Runtime) (tx : Transaction) (thisAddress otherAddress : Option String) :
    Throws (Option String) :=
  rt.erc20Interface.parseTransaction tx.data tx.value >>= fun parsed =>
  match parsed with
  | none => throw ()
  | some decodedData =>
    if decodedData.name = "transfer" ∨ decodedData.name = "transferFrom" then
      checkAddresses rt thisAddress otherAddress
        (jsOr (decodedData.args "sender") thisAddress) (decodedData.args "recipient") "20"
    else pure none

/-- The body of the third `try` block (lines 119-123). -/
def erc721Block (rt : Runtime) (tx : Transaction) (thisAddress otherAddress : Option String) :
    Throws (Option String) :=
  rt.erc721Interface.parseTransaction tx.data tx.value >>= fun parsed =>
  match parsed with
  | none => throw ()
  | some decodedData =>
    if decodedData.name = "transferFrom" ∨ decodedData.name = "safeTransferFrom" then
      checkAddresses rt thisAddress otherAddress
        (decodedData.args "from") (decodedData.args "to") "721"
    else pure none

/-- The function `analyzeTransaction(tx, thisAddress, otherAddress)`.
The result `none` is the JavaScript `false`. -/
def analyzeTransaction (rt : Runtime) (tx : Transaction) (thisAddress otherAddress : Option String) :
    Throws (Option String) :=
  if !truthy thisAddress || !truthy otherAddress || !truthy tx.from_ || !truthy tx.to_ then
    pure none
  else
    checkAddresses rt thisAddress otherAddress tx.from_ tx.to_ "ETH" >>= fun result =>
    match result with
    | some r => pure (some r)
    | none =>
      match tryCatch (erc1155Block rt tx thisAddress otherAddress) with
      | some r => pure (some r)
      | none =>
        match tryCatch (erc20Block rt tx thisAddress otherAddress) with
        | some r => pure (some r)
        | none =>
          match tryCatch (erc721Block rt tx thisAddress otherAddress) with
          | some r => pure (some r)
          | none => pure none

/-! ## The pair loop of main (index.js, lines 42-83) -/

/-- A number held by the `analysis` object: a count or `NaN`. Counts are exact:
they are bounded by the lengths of two arrays, far below `2^53`. -/
inductive JSNumber where
  | num (n : Nat)
  | NaN
deriving DecidableEq, Repr

/-- The `analysis` object: the value stored under each key, `none` (undefined)
for a key the object does not have. -/
abbrev Analysis := String → Option JSNumber

/-- The object literal of lines 43-46. -/
def Analysis.init : Analysis := fun key =>
  if key = "send-to" then some (.num 0)
  else if key = "sent-from" then some (.num 0)
  else none

/-- The statement `analysis[key]++`: a count is incremented; an absent key is
created holding `NaN` (`undefined + 1`), and `NaN` stays `NaN`. -/
def Analysis.increment (analysis : Analysis) (key : String) : Analysis := fun k =>
  if k = key then
    match analysis key with
    | some (.num n) => some (.num (n + 1))
    | _ => some .NaN
  else analysis k

/-- The comparison `x > 0`, false for `NaN` and for `undefined`. -/
def positive : Option JSNumber → Bool
  | some (.num n) => decide (0 < n)
  | _ => false

/-- The loop over the history of `pair[0]` (lines 52-57). A throw inside the
loop leaves it, and what was counted before stays in `analysis`. -/
def primaryLoop (rt : Runtime) (pair : List String) : List Transaction → Analysis → Analysis
  | [], analysis => analysis
  | tx :: rest, analysis =>
    match analyzeTransaction rt tx pair[0]? pair[1]? with
    | .error _ => analysis
    | .ok none => primaryLoop rt pair rest analysis
    | .ok (some result) => primaryLoop rt pair rest (analysis.increment result)

/-- The loop over the history of `pair[1]` (lines 63-70), with the relabelling of
line 67 copied literally. -/
def secondaryLoop (rt : Runtime) (pair : List String) : List Transaction → Analysis → Analysis
  | [], analysis => analysis
  | tx :: rest, analysis =>
    match analyzeTransaction rt tx pair[1]? pair[0]? with
    | .error _ => analysis
    | .ok none => secondaryLoop rt pair rest analysis
    | .ok (some result) =>
      secondaryLoop rt pair rest
        (analysis.increment (if result = "send-to" then "send-from" else "send-to"))

/-- Lines 43-71 for one pair: `first` and `second` are the outcomes of the two
calls `provider.getHistory(pair[0])` and `provider.getHistory(pair[1])`; a call
that throws is caught by the enclosing `try` and leaves `analysis` as it is. -/
def analyzePair (rt : Runtime) (pair : List String) (first second : Throws (List Transaction)) :
    Analysis :=
  let analysis := Analysis.init
  let analysis :=
    match first with
    | .ok history => primaryLoop rt pair history analysis
    | .error _ => analysis
  match second with
  | .ok history => secondaryLoop rt pair history analysis
  | .error _ => analysis

/-- The three outcome buckets. -/
inductive Bucket where
  | Pass
  | Partial
  | Fail
deriving DecidableEq, Repr

/-- The conditions of lines 74-80. -/
def bucketOf (analysis : Analysis) : Bucket :=
  if positive (analysis "send-to") && positive (analysis "sent-from") then .Pass
  else if positive (analysis "send-to") || positive (analysis "sent-from") then .Partial
  else .Fail

/-- The three arrays `passPairs`, `partialPairs` and `failPairs` of line 41. -/
structure Output where
  passPairs : List (List String)
  partialPairs : List (List String)
  failPairs : List (List String)
deriving DecidableEq, Repr

/-- The `push` of lines 75, 77 and 79. -/
def Output.push (out : Output) (pair : List String) : Bucket → Output
  | .Pass => { out with passPairs := out.passPairs ++ [pair] }
  | .Partial => { out with partialPairs := out.partialPairs ++ [pair] }
  | .Fail => { out with failPairs := out.failPairs ++ [pair] }

/-- The bucket in which the loop body places `pair`. -/
def bucketOfPair (rt : Runtime) (getHistory : Option String → Throws (List Transaction))
    (pair : List String) : Bucket :=
  bucketOf (analyzePair rt pair (getHistory pair[0]?) (getHistory pair[1]?))

/-- The loop `for (let pair of ADDRESS_PAIRS)` of lines 42-83. -/
def mainLoop (rt : Runtime) (getHistory : Option String → Throws (List Transaction)) :
    List (List String) → Output → Output
  | [], out => out
  | pair :: rest, out =>
    mainLoop rt getHistory rest (out.push pair (bucketOfPair rt getHistory pair))

/-- The three lists that `main` writes out. -/
def main (rt : Runtime) (getHistory : Option String → Throws (List Transaction))
    (ADDRESS_PAIRS : List (List String)) : Output :=
  mainLoop rt getHistory ADDRESS_PAIRS ⟨[], [], []⟩

/-! ## Notions used in the statements -/

/-- A verdict: `false` or one of the two verdict strings. -/
def IsVerdict (r : Option String) : Prop :=
  r = none ∨ r = some "send-to" ∨ r = some "sent-from"

/-- The cascade of the three `try` blocks that follows the native check. -/
def tokenCascade (rt : Runtime) (tx : Transaction) (thisAddress otherAddress : Option String) :
    Option String :=
  match tryCatch (erc1155Block rt tx thisAddress otherAddress) with
  | some r => some r
  | none =>
    match tryCatch (erc20Block rt tx thisAddress otherAddress) with
    | some r => some r
    | none => tryCatch (erc721Block rt tx thisAddress otherAddress)

/-- The number of transactions of `history` on which `analyzeTransaction`, called
with `observer` and `other`, returns `verdict`. -/
def verdictCount (rt : Runtime) (observer other : Option String) (verdict : String)
    (history : List Transaction) : Nat :=
  history.countP (fun tx => decide (analyzeTransaction rt tx observer other = .ok (some verdict)))

/-- The history that a fetch contributes: nothing when the fetch threw. -/
def fetched : Throws (List Transaction) → List Transaction
  | .ok history => history
  | .error _ => []

/-! ## The decoding cascade as the specification words it -/

/-- A normalized transfer event: the two addresses taken from a decoded call. -/
structure TransferEvent where
  from_ : Option String
  to_ : Option String

/-- A decode that succeeds with a recognized selector: `parseTransaction` returns
a description whose name is one of `selectors`. -/
def decodeRecognized (iface : Interface) (selectors : List String) (tx : Transaction) :
    Option TransactionDescription :=
  match iface.parseTransaction tx.data tx.value with
  | .ok (some decodedData) => if decodedData.name ∈ selectors then some decodedData else none
  | _ => none

/-- The event of the ERC-1155 interpretation, when its decode succeeds. -/
def erc1155Event (rt : Runtime) (tx : Transaction) : Option TransferEvent :=
  (decodeRecognized rt.erc1155Interface ["safeTransferFrom", "safeBatchTransferFrom"] tx).map
    fun d => ⟨d.args "_from", d.args "_to"⟩

/-- The event of the ERC-20 interpretation, when its decode succeeds: the sender
defaults to the address being inspected. -/
def erc20Event (rt : Runtime) (tx : Transaction) (observer : Option String) :
    Option TransferEvent :=
  (decodeRecognized rt.erc20Interface ["transfer", "transferFrom"] tx).map
    fun d => ⟨jsOr (d.args "sender") observer, d.args "recipient"⟩

/-- The event of the ERC-721 interpretation, when its decode succeeds. -/
def erc721Event (rt : Runtime) (tx : Transaction) : Option TransferEvent :=
  (decodeRecognized rt.erc721Interface ["transferFrom", "safeTransferFrom"] tx).map
    fun d => ⟨d.args "from", d.args "to"⟩

/-- The three interpretations in their fixed order. -/
def tokenEvents (rt : Runtime) (tx : Transaction) (observer : Option String) :
    List (Option TransferEvent) :=
  [erc1155Event rt tx, erc20Event rt tx observer, erc721Event rt tx]

/-- The classification of an event by `checkAddresses`; an event that lacks an
address has no verdict. -/
def classify (rt : Runtime) (event : TransferEvent) (observer other : Option String) :
    Option String :=
  tryCatch (checkAddresses rt observer other event.from_ event.to_ "")

/-- The verdict when the first successful decode is authoritative: the
classification of the first event that exists, whether or not it gives a verdict. -/
def firstDecodeVerdict (rt : Runtime) (tx : Transaction) (observer other : Option String) :
    Option String :=
  match (tokenEvents rt tx observer).findSome? id with
  | some event => classify rt event observer other
  | none => none

/-- The verdict when the first interpretation that gives a verdict wins: an event
without a verdict does not stop the cascade. -/
def firstVerdict (rt : Runtime) (tx : Transaction) (observer other : Option String) :
    Option String :=
  (tokenEvents rt tx observer).findSome?
    fun e => e.bind fun event => classify rt event observer other

/-! ## Notions used in the statements about decoding and letter case -/

/-- A decode that is a non-match: `parseTransaction` throws or returns `null`, or
the decoded name is not one of `selectors` (these three make `decodeRecognized`
return `none`), or one of the arguments named in `required` is absent. -/
def decodeFails (iface : Interface) (selectors required : List String) (tx : Transaction) :
    Bool :=
  match decodeRecognized iface selectors tx with
  | none => true
  | some decodedData => required.any fun key => (decodedData.args key).isNone

/-- Two address values that differ at most in letter case: both absent, or two
strings with the same lower-casing that are both empty or both non-empty. -/
def SameUpToCase (rt : Runtime) (a b : Option String) : Prop :=
  match a, b with
  | none, none => True
  | some x, some y => rt.toLowerCase x = rt.toLowerCase y ∧ (x = "" ↔ y = "")
  | _, _ => False

/-- Two outcomes of `parseTransaction` that differ at most in the letter case of
the decoded arguments: both throw, both are `null`, or both are descriptions with
the same name whose arguments agree up to letter case. -/
def SameDecode (rt : Runtime) (p q : Throws (Option TransactionDescription)) : Prop :=
  match p, q with
  | .error _, .error _ => True
  | .ok none, .ok none => True
  | .ok (some d), .ok (some e) => d.name = e.name ∧ ∀ key, SameUpToCase rt (d.args key) (e.args key)
  | _, _ => False

/-- The function `checkAddresses` with its two tests in the other order: the
`sent-from` condition is tested first. -/
def checkAddressesReversed (rt : Runtime) (thisAddress otherAddress from_ to_ : Option String)
    (type : String) : Throws (Option String) :=
  let _unused := type
  jsAnd (strictEq (lower rt otherAddress) (lower rt from_))
        (strictEq (lower rt thisAddress) (lower rt to_)) >>= fun c2 =>
  if c2 then pure (some "sent-from")
  else
    jsAnd (strictEq (lower rt thisAddress) (lower rt from_))
          (strictEq (lower rt otherAddress) (lower rt to_)) >>= fun c1 =>
    if c1 then pure (some "send-to")
    else pure none

/-! ## Concrete data used by the examples -/

/-- Lower-casing of the letters `A`-`Z`, which is what `toLowerCase` does on the
hexadecimal strings that addresses are. -/
def asciiLower (s : String) : String := ⟨s.data.map Char.toLower⟩

/-- An interface whose `parseTransaction` always throws. -/
def noInterface : Interface := ⟨fun _ _ => throw ()⟩

/-- An interface that decodes exactly the call data `callData`, as the function
`name` with the named arguments `args`, and throws on any other data. -/
def mockInterface (callData name : String) (args : List (String × String)) : Interface :=
  ⟨fun data _ =>
    if data = callData then .ok (some ⟨name, fun key => args.lookup key⟩) else .error ()⟩

/-- A runtime without any token interface. -/
def nativeRuntime : Runtime := ⟨asciiLower, noInterface, noInterface, noInterface⟩

/-- A native transfer from `0xAAaa` to `0xBBbb`. -/
def nativeTx : Transaction := ⟨some "0xAAaa", some "0xBBbb", "0x", 1⟩

/-- A native transfer from `0xBBbb` to `0xAAaa`. -/
def returnTx : Transaction := ⟨some "0xBBbb", some "0xAAaa", "0x", 1⟩

/-- The pair `(0xAAaa, 0xBBbb)`. -/
def examplePair : List String := ["0xAAaa", "0xBBbb"]

/-- The first address of the scenarios. -/
def address1 : String := "0x1111111111111111111111111111111111111111"

/-- The second address of the scenarios. -/
def address2 : String := "0x2222222222222222222222222222222222222222"

/-- The pair of the scenarios. -/
def scenarioPair : List String := [address1, address2]

/-- Scenario A: `address1` sends 1 ETH to `address2`, empty data. -/
def scenarioNativeTx : Transaction := ⟨some address1, some address2, "0x", 1000000000000000000⟩

/-- The call data of `transfer(address1, 5)`. -/
def transferData : String :=
  "0xa9059cbb0000000000000000000000001111111111111111111111111111111111111111" ++
  "0000000000000000000000000000000000000000000000000000000000000005"

/-- Scenario B: `address2` calls `transfer(address1, 5)` on a token contract. -/
def scenarioTokenTx : Transaction :=
  ⟨some address2, some "0x3333333333333333333333333333333333333333", transferData, 0⟩

/-- The runtime of scenario B: the ERC-20 interface decodes `transferData` as
`transfer` with recipient `address1` and no sender argument; the other two
interfaces do not decode it. -/
def scenarioRuntime : Runtime :=
  ⟨asciiLower, noInterface, mockInterface transferData "transfer" [("recipient", address1)],
    noInterface⟩

/-- A transaction sent by `0xAAaa` to a contract, with call data `0xf242432a`. -/
def collidingTx : Transaction := ⟨some "0xAAaa", some "0xEEee", "0xf242432a", 0⟩

/-- A runtime in which the call data `0xf242432a` decodes under two interfaces: as
ERC-1155 `safeTransferFrom` from `0xCCcc` to `0xDDdd`, and as ERC-20 `transfer`
with recipient `0xBBbb`. -/
def collidingRuntime : Runtime :=
  ⟨asciiLower,
    mockInterface "0xf242432a" "safeTransferFrom" [("_from", "0xCCcc"), ("_to", "0xDDdd")],
    mockInterface "0xf242432a" "transfer" [("recipient", "0xBBbb")],
    noInterface⟩

/-- The runtime `collidingRuntime` without its ERC-20 interface. -/
def erc1155OnlyRuntime : Runtime :=
  { collidingRuntime with erc20Interface := noInterface }

/-- A transaction sent by a third party to a contract, with call data `0xf242432a`. -/
def relayedTx : Transaction := ⟨some "0xFFff", some "0xEEee", "0xf242432a", 0⟩

/-- A runtime whose ERC-1155 interface decodes `0xf242432a` as `safeTransferFrom`
from `0xAAAA` to `0xBBBB`. -/
def erc1155Runtime : Runtime :=
  ⟨asciiLower,
    mockInterface "0xf242432a" "safeTransferFrom" [("_from", "0xAAAA"), ("_to", "0xBBBB")],
    noInterface, noInterface⟩

/-- The runtime `erc1155Runtime` with the decoded addresses in lower case. -/
def erc1155LowerRuntime : Runtime :=
  ⟨asciiLower,
    mockInterface "0xf242432a" "safeTransferFrom" [("_from", "0xaaaa"), ("_to", "0xbbbb")],
    noInterface, noInterface⟩

/-- A runtime whose three interfaces all decode `0xf242432a` and all miss: the
ERC-1155 decode lacks `_to`, the ERC-20 decode has an unrecognized name, and the
ERC-721 interface throws. -/
def failingRuntime : Runtime :=
  ⟨asciiLower,
    mockInterface "0xf242432a" "safeTransferFrom" [("_from", "0xAAaa")],
    mockInterface "0xf242432a" "approve" [("spender", "0xBBbb")],
    noInterface⟩

/-- The transaction `relayedTx` with its two addresses in lower case. -/
def relayedLowerTx : Transaction := ⟨some "0xffff", some "0xeeee", "0xf242432a", 0⟩

/-! # Theorems -/

/-! ## Basic facts about checkAddresses -/

theorem checkAddresses_strings (rt : Runtime) (thisAddress otherAddress from_ to_ type : String) :
    checkAddresses rt (some thisAddress) (some otherAddress) (some from_) (some to_) type =
      .ok (if rt.toLowerCase thisAddress = rt.toLowerCase from_ ∧
              rt.toLowerCase otherAddress = rt.toLowerCase to_ then some "send-to"
           else if rt.toLowerCase otherAddress = rt.toLowerCase from_ ∧
              rt.toLowerCase thisAddress = rt.toLowerCase to_ then some "sent-from"
           else none) := by
  simp only [checkAddresses, jsAnd, strictEq, lower, bind, Except.bind, pure, Except.pure]
  split_ifs <;> simp_all

/-- Whatever its arguments, `checkAddresses` throws, returns `false` or returns
one of the two verdict strings. -/
theorem checkAddresses_cases (rt : Runtime) (a b f t : Option String) (type : String) :
    checkAddresses rt a b f t type = .error () ∨
    checkAddresses rt a b f t type = .ok none ∨
    checkAddresses rt a b f t type = .ok (some "send-to") ∨
    checkAddresses rt a b f t type = .ok (some "sent-from") := by
  unfold checkAddresses
  generalize jsAnd (strictEq (lower rt a) (lower rt f)) (strictEq (lower rt b) (lower rt t)) = X
  generalize jsAnd (strictEq (lower rt b) (lower rt f)) (strictEq (lower rt a) (lower rt t)) = Y
  rcases X with _ | _ | _ <;> rcases Y with _ | _ | _ <;>
  simp [bind, Except.bind, pure, Except.pure]

/-! ## Basic facts about analyzeTransaction -/

theorem truthy_eq_true {a : Option String} (h : truthy a = true) : ∃ s, a = some s ∧ s ≠ "" := by
  cases a with
  | none => simp [truthy] at h
  | some s => exact ⟨s, rfl, by simpa [truthy] using h⟩

theorem tryCatch_checkAddresses (rt : Runtime) (a b f t : Option String) (type : String) :
    IsVerdict (tryCatch (checkAddresses rt a b f t type)) := by
  rcases checkAddresses_cases rt a b f t type with h | h | h | h <;> simp [h, tryCatch, IsVerdict]

theorem erc1155Block_verdict (rt : Runtime) (tx : Transaction) (a b : Option String) :
    IsVerdict (tryCatch (erc1155Block rt tx a b)) := by
  unfold erc1155Block
  rcases rt.erc1155Interface.parseTransaction tx.data tx.value with _ | _ | d
  · simp [bind, Except.bind, tryCatch, IsVerdict]
  · simp [bind, Except.bind, tryCatch, IsVerdict, throw, throwThe, MonadExceptOf.throw]
  · simp only [bind, Except.bind]
    split_ifs
    · exact tryCatch_checkAddresses ..
    · simp [tryCatch, IsVerdict, pure, Except.pure]

theorem erc20Block_verdict (rt : Runtime) (tx : Transaction) (a b : Option String) :
    IsVerdict (tryCatch (erc20Block rt tx a b)) := by
  unfold erc20Block
  rcases rt.erc20Interface.parseTransaction tx.data tx.value with _ | _ | d
  · simp [bind, Except.bind, tryCatch, IsVerdict]
  · simp [bind, Except.bind, tryCatch, IsVerdict, throw, throwThe, MonadExceptOf.throw]
  · simp only [bind, Except.bind]
    split_ifs
    · exact tryCatch_checkAddresses ..
    · simp [tryCatch, IsVerdict, pure, Except.pure]

theorem erc721Block_verdict (rt : Runtime) (tx : Transaction) (a b : Option String) :
    IsVerdict (tryCatch (erc721Block rt tx a b)) := by
  unfold erc721Block
  rcases rt.erc721Interface.parseTransaction tx.data tx.value with _ | _ | d
  · simp [bind, Except.bind, tryCatch, IsVerdict]
  · simp [bind, Except.bind, tryCatch, IsVerdict, throw, throwThe, MonadExceptOf.throw]
  · simp only [bind, Except.bind]
    split_ifs
    · exact tryCatch_checkAddresses ..
    · simp [tryCatch, IsVerdict, pure, Except.pure]

theorem tokenCascade_verdict (rt : Runtime) (tx : Transaction) (a b : Option String) :
    IsVerdict (tokenCascade rt tx a b) := by
  unfold tokenCascade
  rcases h1 : tryCatch (erc1155Block rt tx a b) with _ | r1
  · rcases h2 : tryCatch (erc20Block rt tx a b) with _ | r2
    · exact erc721Block_verdict rt tx a b
    · have := erc20Block_verdict rt tx a b
      rwa [h2] at this
  · have := erc1155Block_verdict rt tx a b
    rwa [h1] at this

/-- When one of the four addresses is missing, the sanity check returns `false`. -/
theorem analyzeTransaction_missing (rt : Runtime) (tx : Transaction) (a b : Option String)
    (h : truthy a = false ∨ truthy b = false ∨ truthy tx.from_ = false ∨ truthy tx.to_ = false) :
    analyzeTransaction rt tx a b = .ok none := by
  unfold analyzeTransaction
  rw [if_pos]
  · rfl
  · rcases h with h | h | h | h <;> simp [h]

/-- When the four addresses are present, the result is the native verdict if there
is one and the result of the token cascade otherwise. -/
theorem analyzeTransaction_present (rt : Runtime) (tx : Transaction) (a b : Option String)
    (ha : truthy a = true) (hb : truthy b = true)
    (hf : truthy tx.from_ = true) (ht : truthy tx.to_ = true) :
    analyzeTransaction rt tx a b =
      .ok (match tryCatch (checkAddresses rt a b tx.from_ tx.to_ "ETH") with
           | some r => some r
           | none => tokenCascade rt tx a b) := by
  obtain ⟨sa, rfl, -⟩ := truthy_eq_true ha
  obtain ⟨sb, rfl, -⟩ := truthy_eq_true hb
  obtain ⟨sf, hsf, -⟩ := truthy_eq_true hf
  obtain ⟨st, hst, -⟩ := truthy_eq_true ht
  unfold analyzeTransaction
  rw [if_neg (by simp [ha, hb, hf, ht])]
  rw [hsf, hst, checkAddresses_strings]
  simp only [bind, Except.bind, tokenCascade, pure, Except.pure]
  generalize tryCatch (erc1155Block rt tx (some sa) (some sb)) = c1
  generalize tryCatch (erc20Block rt tx (some sa) (some sb)) = c2
  generalize tryCatch (erc721Block rt tx (some sa) (some sb)) = c3
  rcases c1 with _ | r1 <;> rcases c2 with _ | r2 <;> rcases c3 with _ | r3 <;>
    split_ifs <;> rfl

/-- The function `analyzeTransaction` never throws, and its result is `false` or
one of the two verdict strings. -/
theorem analyzeTransaction_verdict (rt : Runtime) (tx : Transaction) (a b : Option String) :
    ∃ r, analyzeTransaction rt tx a b = .ok r ∧ IsVerdict r := by
  by_cases h : truthy a = true ∧ truthy b = true ∧ truthy tx.from_ = true ∧ truthy tx.to_ = true
  · obtain ⟨ha, hb, hf, ht⟩ := h
    refine ⟨_, analyzeTransaction_present rt tx a b ha hb hf ht, ?_⟩
    have h1 := tryCatch_checkAddresses rt a b tx.from_ tx.to_ "ETH"
    rcases h0 : tryCatch (checkAddresses rt a b tx.from_ tx.to_ "ETH") with _ | r
    · exact tokenCascade_verdict rt tx a b
    · rwa [h0] at h1
  · refine ⟨none, analyzeTransaction_missing rt tx a b ?_, Or.inl rfl⟩
    simp only [not_and_or, Bool.not_eq_true] at h
    exact h

/-! ## Counting verdicts in a history -/

theorem increment_same (a : Analysis) (k : String) (n : Nat) (h : a k = some (.num n)) :
    a.increment k k = some (.num (n + 1)) := by
  simp [Analysis.increment, h]

theorem increment_other (a : Analysis) (k k2 : String) (h : k2 ≠ k) :
    a.increment k k2 = a k2 := by
  simp [Analysis.increment, h]

theorem verdictCount_cons (rt : Runtime) (a b : Option String) (v : String) (tx : Transaction)
    (rest : List Transaction) :
    verdictCount rt a b v (tx :: rest) =
      verdictCount rt a b v rest + (if analyzeTransaction rt tx a b = .ok (some v) then 1 else 0) := by
  simp [verdictCount, List.countP_cons]

/-- The two keys that bucketing reads after the loop over the history of `pair[0]`. -/
theorem primaryLoop_counts (rt : Runtime) (pair : List String) (history : List Transaction) :
    ∀ (a : Analysis) (n m : Nat), a "send-to" = some (.num n) → a "sent-from" = some (.num m) →
      primaryLoop rt pair history a "send-to" =
        some (.num (n + verdictCount rt pair[0]? pair[1]? "send-to" history)) ∧
      primaryLoop rt pair history a "sent-from" =
        some (.num (m + verdictCount rt pair[0]? pair[1]? "sent-from" history)) := by
  induction history with
  | nil => intro a n m h1 h2; simp [primaryLoop, verdictCount, h1, h2]
  | cons tx rest ih =>
    intro a n m h1 h2
    obtain ⟨r, hr, hv⟩ := analyzeTransaction_verdict rt tx pair[0]? pair[1]?
    rw [verdictCount_cons, verdictCount_cons, primaryLoop, hr]
    rcases hv with rfl | rfl | rfl
    · simpa using ih a n m h1 h2
    · have := ih (a.increment "send-to") (n + 1) m (increment_same a _ n h1)
        (by rw [increment_other a _ _ (by decide)]; exact h2)
      simp only [this]
      constructor <;> simp only [reduceCtorEq, if_true, if_false, String.reduceEq, Option.some.injEq,
        Except.ok.injEq, JSNumber.num.injEq] <;> omega
    · have := ih (a.increment "sent-from") n (m + 1)
        (by rw [increment_other a _ _ (by decide)]; exact h1) (increment_same a _ m h2)
      simp only [this]
      constructor <;> simp only [reduceCtorEq, if_true, if_false, String.reduceEq, Option.some.injEq,
        Except.ok.injEq, JSNumber.num.injEq] <;> omega

/-- The two keys that bucketing reads after the loop over the history of `pair[1]`:
only `send-to` is ever incremented there. -/
theorem secondaryLoop_counts (rt : Runtime) (pair : List String) (history : List Transaction) :
    ∀ (a : Analysis) (n : Nat), a "send-to" = some (.num n) →
      secondaryLoop rt pair history a "send-to" =
        some (.num (n + verdictCount rt pair[1]? pair[0]? "sent-from" history)) ∧
      secondaryLoop rt pair history a "sent-from" = a "sent-from" := by
  induction history with
  | nil => intro a n h1; simp [secondaryLoop, verdictCount, h1]
  | cons tx rest ih =>
    intro a n h1
    obtain ⟨r, hr, hv⟩ := analyzeTransaction_verdict rt tx pair[1]? pair[0]?
    rw [verdictCount_cons, secondaryLoop, hr]
    rcases hv with rfl | rfl | rfl
    · simpa using ih a n h1
    · have := ih (a.increment "send-from") n (by rw [increment_other a _ _ (by decide)]; exact h1)
      simp only [if_true, this]
      refine ⟨by simp, increment_other a _ _ (by decide)⟩
    · have := ih (a.increment "send-to") (n + 1) (increment_same a _ n h1)
      simp only [show ("sent-from" = "send-to") = False from by decide, if_false, this]
      refine ⟨by simp; omega, increment_other a _ _ (by decide)⟩

/-- The two counts that bucketing reads, for any two fetch outcomes. -/
theorem analyzePair_counts (rt : Runtime) (pair : List String)
    (first second : Throws (List Transaction)) :
    analyzePair rt pair first second "send-to" =
      some (.num (verdictCount rt pair[0]? pair[1]? "send-to" (fetched first) +
                  verdictCount rt pair[1]? pair[0]? "sent-from" (fetched second))) ∧
    analyzePair rt pair first second "sent-from" =
      some (.num (verdictCount rt pair[0]? pair[1]? "sent-from" (fetched first))) := by
  have h0 : Analysis.init "send-to" = some (.num 0) := by decide
  have h1 : Analysis.init "sent-from" = some (.num 0) := by decide
  have hnil : ∀ a b v, verdictCount rt a b v [] = 0 := fun _ _ _ => rfl
  rcases first with e1 | history1 <;> rcases second with e2 | history2 <;>
    simp only [analyzePair, fetched, hnil, Nat.add_zero]
  · exact ⟨h0, h1⟩
  · have h := secondaryLoop_counts rt pair history2 Analysis.init 0 h0
    simpa [h1] using h
  · have h := primaryLoop_counts rt pair history1 Analysis.init 0 0 h0 h1
    simpa using h
  · have h := primaryLoop_counts rt pair history1 Analysis.init 0 0 h0 h1
    have h2 := secondaryLoop_counts rt pair history2 _ _ h.1
    rw [h2.1, h2.2, h.2]
    simp

/-! ## C1 -/

/-- C1: on four strings, `checkAddresses` returns `send-to` when `from` matches the
observer and `to` matches the other address (lower-cased), otherwise `sent-from`
when `from` matches the other address and `to` the observer, otherwise `false`;
and the `type` argument never changes the result, whatever the arguments are. -/
theorem checkAddresses_spec (rt : Runtime) (observer other from_ to_ type : String) :
    checkAddresses rt (some observer) (some other) (some from_) (some to_) type =
      .ok (if rt.toLowerCase from_ = rt.toLowerCase observer ∧
              rt.toLowerCase to_ = rt.toLowerCase other then some "send-to"
           else if rt.toLowerCase from_ = rt.toLowerCase other ∧
              rt.toLowerCase to_ = rt.toLowerCase observer then some "sent-from"
           else none) ∧
    ∀ (a b f t : Option String) (type1 type2 : String),
      checkAddresses rt a b f t type1 = checkAddresses rt a b f t type2 := by
  refine ⟨?_, fun _ _ _ _ _ _ => rfl⟩
  rw [checkAddresses_strings]
  simp only [eq_comm]

/-! ## C2 -/

/-- C2 (evaluation of the code where the claim fails): for the pair
`(0xAAaa, 0xBBbb)` whose two histories both hold the one transfer from `0xBBbb` to
`0xAAaa`, the primary history has one `sent-from` verdict and the secondary history
has one `send-to` verdict, so the claimed `sentFrom` is 2; the loop ends with
`sent-from` equal to 1, because line 67 relabels the secondary `send-to` verdict to
the key `send-from`, which is created holding `NaN` and is never read. -/
theorem secondary_sendTo_relabelled_to_stray_key :
    verdictCount nativeRuntime examplePair[0]? examplePair[1]? "sent-from" [returnTx] = 1 ∧
    verdictCount nativeRuntime examplePair[1]? examplePair[0]? "send-to" [returnTx] = 1 ∧
    analyzePair nativeRuntime examplePair (.ok [returnTx]) (.ok [returnTx]) "sent-from" =
      some (.num 1) ∧
    analyzePair nativeRuntime examplePair (.ok [returnTx]) (.ok [returnTx]) "send-from" =
      some .NaN ∧
    analyzePair nativeRuntime examplePair (.ok [returnTx]) (.ok [returnTx]) "send-to" =
      some (.num 0) := by
  decide

/-! ## C3 -/

/-- C3: for final counts `sendTo` and `sentFrom`, the bucket is Pass exactly when
both are positive, Partial exactly when one of them is positive and the other is
not, and Fail exactly when both are zero; the pair is pushed on the list of that
bucket and on no other. -/
theorem bucketOf_spec (analysis : Analysis) (sendTo sentFrom : Nat)
    (h1 : analysis "send-to" = some (.num sendTo))
    (h2 : analysis "sent-from" = some (.num sentFrom)) :
    (bucketOf analysis = .Pass ↔ 0 < sendTo ∧ 0 < sentFrom) ∧
    (bucketOf analysis = .Partial ↔
      (0 < sendTo ∧ ¬ 0 < sentFrom) ∨ (¬ 0 < sendTo ∧ 0 < sentFrom)) ∧
    (bucketOf analysis = .Fail ↔ sendTo = 0 ∧ sentFrom = 0) ∧
    (∀ (out : Output) (pair : List String),
      (out.push pair (bucketOf analysis)).passPairs.length +
        (out.push pair (bucketOf analysis)).partialPairs.length +
        (out.push pair (bucketOf analysis)).failPairs.length =
      out.passPairs.length + out.partialPairs.length + out.failPairs.length + 1) := by
  have hb : bucketOf analysis =
      if 0 < sendTo ∧ 0 < sentFrom then .Pass
      else if 0 < sendTo ∨ 0 < sentFrom then .Partial else .Fail := by
    simp only [bucketOf, h1, h2, positive, Bool.and_eq_true, Bool.or_eq_true, decide_eq_true_eq]
  refine ⟨?_, ?_, ?_, ?_⟩
  · rw [hb]; split_ifs <;> simp_all
  · rw [hb]; split_ifs <;> (simp_all; try omega)
  · rw [hb]; split_ifs <;> simp_all <;> omega
  · intro out pair
    cases bucketOf analysis <;> simp only [Output.push, List.length_append, List.length_singleton] <;>
      omega

/-- C3, at the counts 1 and 0. -/
theorem bucketOf_spec_witness :
    (bucketOf (Analysis.init.increment "send-to") = .Pass ↔ 0 < 1 ∧ 0 < 0) ∧
    (bucketOf (Analysis.init.increment "send-to") = .Partial ↔
      (0 < 1 ∧ ¬ 0 < 0) ∨ (¬ 0 < 1 ∧ 0 < 0)) ∧
    (bucketOf (Analysis.init.increment "send-to") = .Fail ↔ 1 = 0 ∧ 0 = 0) ∧
    (∀ (out : Output) (pair : List String),
      (out.push pair (bucketOf (Analysis.init.increment "send-to"))).passPairs.length +
        (out.push pair (bucketOf (Analysis.init.increment "send-to"))).partialPairs.length +
        (out.push pair (bucketOf (Analysis.init.increment "send-to"))).failPairs.length =
      out.passPairs.length + out.partialPairs.length + out.failPairs.length + 1) :=
  bucketOf_spec (Analysis.init.increment "send-to") 1 0 (by decide) (by decide)

/-! ## C4 -/

/-- C4: when `tx.from` and `tx.to` are present and equal `A` and `B` up to letter
case, and `A` and `B` are non-empty and differ case-insensitively, then
`analyzeTransaction(tx, A, B)` is `send-to` and `analyzeTransaction(tx, B, A)` is
`sent-from`, whatever `tx.data`, `tx.value` and the interfaces are. -/
theorem analyzeTransaction_direct_transfer (rt : Runtime) (tx : Transaction) (f t A B : String)
    (hf : tx.from_ = some f) (ht : tx.to_ = some t) (hf0 : f ≠ "") (ht0 : t ≠ "")
    (hA : A ≠ "") (hB : B ≠ "") (hAB : rt.toLowerCase A ≠ rt.toLowerCase B)
    (h1 : rt.toLowerCase f = rt.toLowerCase A) (h2 : rt.toLowerCase t = rt.toLowerCase B) :
    analyzeTransaction rt tx (some A) (some B) = .ok (some "send-to") ∧
    analyzeTransaction rt tx (some B) (some A) = .ok (some "sent-from") := by
  have tA : truthy (some A) = true := by simp [truthy, hA]
  have tB : truthy (some B) = true := by simp [truthy, hB]
  have tf : truthy tx.from_ = true := by simp [hf, truthy, hf0]
  have tt : truthy tx.to_ = true := by simp [ht, truthy, ht0]
  constructor
  · rw [analyzeTransaction_present rt tx _ _ tA tB tf tt, hf, ht, checkAddresses_strings]
    simp [h1, h2, tryCatch]
  · rw [analyzeTransaction_present rt tx _ _ tB tA tf tt, hf, ht, checkAddresses_strings]
    simp [h1, h2, tryCatch, Ne.symm hAB]

/-- C4, at the transfer from `0xAAaa` to `0xBBbb` and the pair `0xaaaa`, `0xbbbb`. -/
theorem analyzeTransaction_direct_transfer_witness :
    analyzeTransaction nativeRuntime nativeTx (some "0xaaaa") (some "0xbbbb") =
      .ok (some "send-to") ∧
    analyzeTransaction nativeRuntime nativeTx (some "0xbbbb") (some "0xaaaa") =
      .ok (some "sent-from") :=
  analyzeTransaction_direct_transfer nativeRuntime nativeTx "0xAAaa" "0xBBbb" "0xaaaa" "0xbbbb"
    rfl rfl (by decide) (by decide) (by decide) (by decide) (by decide) (by decide) (by decide)

/-! ## C5 -/

/-- C5 (evaluation of the code where the claim fails): in scenario B the token
transfer sent by `address2` gets the verdict `send-to` in the secondary pass, which
line 67 relabels to the stray key `send-from`; so `sent-from` stays 0 and the pair
lands in the Partial bucket, both when the native transfer is in the history of
`address1` only and when it is in both histories. -/
theorem scenarioB_lands_in_partial :
    analyzeTransaction scenarioRuntime scenarioTokenTx (some address2) (some address1) =
      .ok (some "send-to") ∧
    analyzePair scenarioRuntime scenarioPair (.ok [scenarioNativeTx]) (.ok [scenarioTokenTx])
      "send-to" = some (.num 1) ∧
    analyzePair scenarioRuntime scenarioPair (.ok [scenarioNativeTx]) (.ok [scenarioTokenTx])
      "sent-from" = some (.num 0) ∧
    analyzePair scenarioRuntime scenarioPair (.ok [scenarioNativeTx]) (.ok [scenarioTokenTx])
      "send-from" = some .NaN ∧
    bucketOf (analyzePair scenarioRuntime scenarioPair (.ok [scenarioNativeTx])
      (.ok [scenarioTokenTx])) = .Partial ∧
    analyzePair scenarioRuntime scenarioPair (.ok [scenarioNativeTx])
      (.ok [scenarioNativeTx, scenarioTokenTx]) "sent-from" = some (.num 0) ∧
    bucketOf (analyzePair scenarioRuntime scenarioPair (.ok [scenarioNativeTx])
      (.ok [scenarioNativeTx, scenarioTokenTx])) = .Partial := by
  decide

/-! ## C6 -/

theorem erc1155Block_eq_event (rt : Runtime) (tx : Transaction) (a b : Option String) :
    tryCatch (erc1155Block rt tx a b) =
      (erc1155Event rt tx).bind fun event => classify rt event a b := by
  unfold erc1155Block erc1155Event decodeRecognized classify
  rcases rt.erc1155Interface.parseTransaction tx.data tx.value with _ | _ | d
  · rfl
  · rfl
  · simp only [bind, Except.bind, List.mem_cons, List.mem_singleton, List.not_mem_nil, or_false]
    split_ifs <;> rfl

theorem erc20Block_eq_event (rt : Runtime) (tx : Transaction) (a b : Option String) :
    tryCatch (erc20Block rt tx a b) =
      (erc20Event rt tx a).bind fun event => classify rt event a b := by
  unfold erc20Block erc20Event decodeRecognized classify
  rcases rt.erc20Interface.parseTransaction tx.data tx.value with _ | _ | d
  · rfl
  · rfl
  · simp only [bind, Except.bind, List.mem_cons, List.mem_singleton, List.not_mem_nil, or_false]
    split_ifs <;> rfl

theorem erc721Block_eq_event (rt : Runtime) (tx : Transaction) (a b : Option String) :
    tryCatch (erc721Block rt tx a b) =
      (erc721Event rt tx).bind fun event => classify rt event a b := by
  unfold erc721Block erc721Event decodeRecognized classify
  rcases rt.erc721Interface.parseTransaction tx.data tx.value with _ | _ | d
  · rfl
  · rfl
  · simp only [bind, Except.bind, List.mem_cons, List.mem_singleton, List.not_mem_nil, or_false]
    split_ifs <;> rfl

theorem tokenCascade_eq_firstVerdict (rt : Runtime) (tx : Transaction) (a b : Option String) :
    tokenCascade rt tx a b = firstVerdict rt tx a b := by
  unfold tokenCascade firstVerdict tokenEvents
  rw [erc1155Block_eq_event, erc20Block_eq_event, erc721Block_eq_event]
  simp only [List.findSome?]
  rcases (erc1155Event rt tx).bind fun event => classify rt event a b with _ | r1
  · rcases (erc20Event rt tx a).bind fun event => classify rt event a b with _ | r2
    · rcases (erc721Event rt tx).bind fun event => classify rt event a b with _ | r3 <;> rfl
    · rfl
  · rfl

/-- C6 (the claim fails): the call data of `collidingTx` decodes as ERC-1155
`safeTransferFrom` between two addresses outside the pair, so the first successful
decode classifies to no verdict; yet `analyzeTransaction` goes on to the ERC-20
interface and returns `send-to`, and without that ERC-20 decoding it returns
`false`: the later decoding decides the verdict. -/
theorem first_decode_not_authoritative :
    truthy collidingTx.from_ = true ∧ truthy collidingTx.to_ = true ∧
    checkAddresses collidingRuntime (some "0xAAaa") (some "0xBBbb")
      collidingTx.from_ collidingTx.to_ "ETH" = .ok none ∧
    (decodeRecognized collidingRuntime.erc1155Interface
      ["safeTransferFrom", "safeBatchTransferFrom"] collidingTx).map (fun d => d.name) =
      some "safeTransferFrom" ∧
    firstDecodeVerdict collidingRuntime collidingTx (some "0xAAaa") (some "0xBBbb") = none ∧
    analyzeTransaction collidingRuntime collidingTx (some "0xAAaa") (some "0xBBbb") =
      .ok (some "send-to") ∧
    analyzeTransaction erc1155OnlyRuntime collidingTx (some "0xAAaa") (some "0xBBbb") =
      .ok none := by
  decide

/-- C6 (amended): for a transaction with `from` and `to` present whose native
addresses give no verdict, and non-empty observer and other, `analyzeTransaction`
returns the first verdict obtained by classifying, in the order ERC-1155, ERC-20,
ERC-721, the event of each interpretation whose decode succeeds with a recognized
selector, and `false` when none gives a verdict; in particular a verdict of the
ERC-1155 event is returned whatever the other two interfaces decode. -/
theorem analyzeTransaction_first_verdict (rt : Runtime) (tx : Transaction)
    (observer other : Option String)
    (ho : truthy observer = true) (hother : truthy other = true)
    (hf : truthy tx.from_ = true) (ht : truthy tx.to_ = true)
    (hnative : checkAddresses rt observer other tx.from_ tx.to_ "ETH" = .ok none) :
    analyzeTransaction rt tx observer other = .ok (firstVerdict rt tx observer other) ∧
    ∀ v, ((erc1155Event rt tx).bind fun event => classify rt event observer other) = some v →
      ∀ erc20 erc721 : Interface,
        analyzeTransaction { rt with erc20Interface := erc20, erc721Interface := erc721 }
          tx observer other = .ok (some v) := by
  constructor
  · rw [analyzeTransaction_present rt tx _ _ ho hother hf ht, hnative,
      tokenCascade_eq_firstVerdict]
    rfl
  · intro v hv erc20 erc721
    rw [analyzeTransaction_present _ tx _ _ ho hother hf ht]
    have hn : checkAddresses { rt with erc20Interface := erc20, erc721Interface := erc721 }
        observer other tx.from_ tx.to_ "ETH" = .ok none := hnative
    rw [hn]
    have h1 : tryCatch (erc1155Block { rt with erc20Interface := erc20, erc721Interface := erc721 }
        tx observer other) = some v := by
      rw [erc1155Block_eq_event]
      exact hv
    simp only [tryCatch, tokenCascade]
    simp only [tryCatch] at h1
    rw [h1]

/-- C6 (amended), at the transaction `collidingTx`. -/
theorem analyzeTransaction_first_verdict_witness :
    analyzeTransaction collidingRuntime collidingTx (some "0xAAaa") (some "0xBBbb") =
      .ok (firstVerdict collidingRuntime collidingTx (some "0xAAaa") (some "0xBBbb")) ∧
    ∀ v, ((erc1155Event collidingRuntime collidingTx).bind
        fun event => classify collidingRuntime event (some "0xAAaa") (some "0xBBbb")) = some v →
      ∀ erc20 erc721 : Interface,
        analyzeTransaction
          { collidingRuntime with erc20Interface := erc20, erc721Interface := erc721 }
          collidingTx (some "0xAAaa") (some "0xBBbb") = .ok (some v) :=
  analyzeTransaction_first_verdict collidingRuntime collidingTx (some "0xAAaa") (some "0xBBbb")
    (by decide) (by decide) (by decide) (by decide) (by decide)

/-! ## C7 -/

theorem mainLoop_congr (rt : Runtime) (g1 g2 : Option String → Throws (List Transaction))
    (h : ∀ pair, bucketOfPair rt g1 pair = bucketOfPair rt g2 pair) :
    ∀ (pairs : List (List String)) (out : Output),
      mainLoop rt g1 pairs out = mainLoop rt g2 pairs out := by
  intro pairs
  induction pairs with
  | nil => intro out; rfl
  | cons pair rest ih => intro out; simp only [mainLoop, h, ih]

/-- C7: a history fetch that throws leaves the pair with exactly the analysis it has
when that history is the empty sequence, whatever the other fetch gives, and the
run of `main` produces the lists it produces when every failed fetch returns the
empty sequence; in particular one `send-to` transaction in the history of the
primary and a failed fetch for the secondary put the pair in the Partial bucket. -/
theorem fetch_failure_as_empty_history (rt : Runtime) (pair : List String) :
    (∀ (e : Unit) (second : Throws (List Transaction)),
      analyzePair rt pair (.error e) second = analyzePair rt pair (.ok []) second) ∧
    (∀ (e : Unit) (first : Throws (List Transaction)),
      analyzePair rt pair first (.error e) = analyzePair rt pair first (.ok [])) ∧
    (∀ (getHistory : Option String → Throws (List Transaction)) (pairs : List (List String)),
      main rt getHistory pairs = main rt (fun address => .ok (fetched (getHistory address))) pairs) ∧
    (∀ (tx : Transaction) (e : Unit),
      analyzeTransaction rt tx pair[0]? pair[1]? = .ok (some "send-to") →
      bucketOf (analyzePair rt pair (.ok [tx]) (.error e)) = .Partial) := by
  refine ⟨?_, ?_, ?_, ?_⟩
  · intro e second
    cases second <;> rfl
  · intro e first
    cases first <;> rfl
  · intro getHistory pairs
    apply mainLoop_congr
    intro p
    simp only [bucketOfPair]
    rcases getHistory p[0]? with e1 | h1 <;> rcases getHistory p[1]? with e2 | h2 <;> rfl
  · intro tx e h
    simp only [analyzePair, primaryLoop, h]
    decide

/-- C7, at the pair `(0xAAaa, 0xBBbb)` with the transfer `nativeTx` in the history
of the primary and a failed fetch for the secondary. -/
theorem fetch_failure_as_empty_history_witness :
    bucketOf (analyzePair nativeRuntime examplePair (.ok [nativeTx]) (.error ())) = .Partial :=
  (fetch_failure_as_empty_history nativeRuntime examplePair).2.2.2 nativeTx () (by decide)

/-! ## C8 -/

/-- C8: when `tx.from`, `tx.to`, the observer or the other address is missing
(undefined or the empty string), `analyzeTransaction` returns `false` whatever the
three interfaces decode, and the transaction leaves `analysis` unchanged in both
loops of the pair. -/
theorem analyzeTransaction_missing_address (rt : Runtime) (tx : Transaction)
    (observer other : Option String)
    (h : truthy tx.from_ = false ∨ truthy tx.to_ = false ∨
      truthy observer = false ∨ truthy other = false) :
    analyzeTransaction rt tx observer other = .ok none ∧
    (∀ (pair : List String) (rest : List Transaction) (analysis : Analysis),
      pair[0]? = observer → pair[1]? = other →
      primaryLoop rt pair (tx :: rest) analysis = primaryLoop rt pair rest analysis) ∧
    (∀ (pair : List String) (rest : List Transaction) (analysis : Analysis),
      pair[1]? = observer → pair[0]? = other →
      secondaryLoop rt pair (tx :: rest) analysis = secondaryLoop rt pair rest analysis) := by
  have h0 : analyzeTransaction rt tx observer other = .ok none :=
    analyzeTransaction_missing rt tx observer other (by tauto)
  refine ⟨h0, ?_, ?_⟩
  · intro pair rest analysis e0 e1
    rw [primaryLoop, e0, e1, h0]
  · intro pair rest analysis e1 e0
    rw [secondaryLoop, e1, e0, h0]

/-- C8, at a contract creation (no `to`) whose data the ERC-20 interface decodes as
a transfer to `address1`. -/
theorem analyzeTransaction_missing_address_witness :
    analyzeTransaction scenarioRuntime ⟨some address2, none, transferData, 0⟩
      (some address2) (some address1) = .ok none ∧
    (∀ (pair : List String) (rest : List Transaction) (analysis : Analysis),
      pair[0]? = some address2 → pair[1]? = some address1 →
      primaryLoop scenarioRuntime pair (⟨some address2, none, transferData, 0⟩ :: rest) analysis =
        primaryLoop scenarioRuntime pair rest analysis) ∧
    (∀ (pair : List String) (rest : List Transaction) (analysis : Analysis),
      pair[1]? = some address2 → pair[0]? = some address1 →
      secondaryLoop scenarioRuntime pair (⟨some address2, none, transferData, 0⟩ :: rest) analysis =
        secondaryLoop scenarioRuntime pair rest analysis) :=
  analyzeTransaction_missing_address scenarioRuntime ⟨some address2, none, transferData, 0⟩
    (some address2) (some address1) (Or.inr (Or.inl rfl))

/-! ## C9 -/

theorem mainLoop_eq_filter (rt : Runtime) (getHistory : Option String → Throws (List Transaction)) :
    ∀ (pairs : List (List String)) (out : Output),
      mainLoop rt getHistory pairs out =
        ⟨out.passPairs ++ pairs.filter (fun p => decide (bucketOfPair rt getHistory p = .Pass)),
         out.partialPairs ++
           pairs.filter (fun p => decide (bucketOfPair rt getHistory p = .Partial)),
         out.failPairs ++ pairs.filter (fun p => decide (bucketOfPair rt getHistory p = .Fail))⟩ := by
  intro pairs
  induction pairs with
  | nil => intro out; simp [mainLoop]
  | cons pair rest ih =>
    intro out
    rw [mainLoop, ih]
    cases h : bucketOfPair rt getHistory pair <;> simp [Output.push, List.filter_cons, h]

theorem filter_buckets_length (f : List String → Bucket) (pairs : List (List String)) :
    (pairs.filter (fun p => decide (f p = .Pass))).length +
      (pairs.filter (fun p => decide (f p = .Partial))).length +
      (pairs.filter (fun p => decide (f p = .Fail))).length = pairs.length := by
  induction pairs with
  | nil => rfl
  | cons pair rest ih =>
    cases h : f pair <;> simp [List.filter_cons, h] <;> omega

/-- C9: each of the three output lists of `main` is the input list filtered by the
bucket of the pair, hence a sublist of the input in input order; every entry,
repeated ones included, goes to the list of its one bucket, and the three lengths
sum to the length of the input. -/
theorem main_output_partitions_input (rt : Runtime)
    (getHistory : Option String → Throws (List Transaction)) (pairs : List (List String)) :
    (main rt getHistory pairs).passPairs =
      pairs.filter (fun p => decide (bucketOfPair rt getHistory p = .Pass)) ∧
    (main rt getHistory pairs).partialPairs =
      pairs.filter (fun p => decide (bucketOfPair rt getHistory p = .Partial)) ∧
    (main rt getHistory pairs).failPairs =
      pairs.filter (fun p => decide (bucketOfPair rt getHistory p = .Fail)) ∧
    (main rt getHistory pairs).passPairs.Sublist pairs ∧
    (main rt getHistory pairs).partialPairs.Sublist pairs ∧
    (main rt getHistory pairs).failPairs.Sublist pairs ∧
    (main rt getHistory pairs).passPairs.length + (main rt getHistory pairs).partialPairs.length +
      (main rt getHistory pairs).failPairs.length = pairs.length := by
  have h := mainLoop_eq_filter rt getHistory pairs ⟨[], [], []⟩
  simp only [List.nil_append] at h
  simp only [main, h]
  refine ⟨trivial, trivial, trivial, List.filter_sublist _, List.filter_sublist _,
    List.filter_sublist _, ?_⟩
  exact filter_buckets_length (bucketOfPair rt getHistory) pairs

/-! ## C10 -/

theorem verdictCount_le (rt : Runtime) (a b : Option String) (v : String)
    (history : List Transaction) : verdictCount rt a b v history ≤ history.length :=
  List.countP_le_length _

theorem verdictCount_two_le (rt : Runtime) (a b : Option String) (history : List Transaction) :
    verdictCount rt a b "send-to" history + verdictCount rt a b "sent-from" history ≤
      history.length := by
  induction history with
  | nil => simp [verdictCount]
  | cons tx rest ih =>
    rw [verdictCount_cons, verdictCount_cons, List.length_cons]
    by_cases h : analyzeTransaction rt tx a b = .ok (some "send-to")
    · simp only [h, if_true]
      rw [if_neg (by decide)]
      omega
    · rw [if_neg h]
      split_ifs <;> omega

/-- C10: one transaction changes `analysis` by at most one increment of one key in
either loop, and the two counts that bucketing reads are numbers whose sum is at
most the length of the primary history plus the length of the secondary history
(a failed fetch counting as length zero). -/
theorem counts_bounded_by_history_lengths (rt : Runtime) (pair : List String)
    (first second : Throws (List Transaction)) :
    (∀ (tx : Transaction) (analysis : Analysis),
      primaryLoop rt pair [tx] analysis = analysis ∨
      primaryLoop rt pair [tx] analysis = analysis.increment "send-to" ∨
      primaryLoop rt pair [tx] analysis = analysis.increment "sent-from") ∧
    (∀ (tx : Transaction) (analysis : Analysis),
      secondaryLoop rt pair [tx] analysis = analysis ∨
      secondaryLoop rt pair [tx] analysis = analysis.increment "send-from" ∨
      secondaryLoop rt pair [tx] analysis = analysis.increment "send-to") ∧
    ∃ sendTo sentFrom : Nat,
      analyzePair rt pair first second "send-to" = some (.num sendTo) ∧
      analyzePair rt pair first second "sent-from" = some (.num sentFrom) ∧
      sendTo + sentFrom ≤ (fetched first).length + (fetched second).length := by
  refine ⟨?_, ?_, ?_⟩
  · intro tx analysis
    obtain ⟨r, hr, hv⟩ := analyzeTransaction_verdict rt tx pair[0]? pair[1]?
    rcases hv with rfl | rfl | rfl <;> simp [primaryLoop, hr]
  · intro tx analysis
    obtain ⟨r, hr, hv⟩ := analyzeTransaction_verdict rt tx pair[1]? pair[0]?
    rcases hv with rfl | rfl | rfl <;> simp [secondaryLoop, hr]
  · obtain ⟨h1, h2⟩ := analyzePair_counts rt pair first second
    refine ⟨_, _, h1, h2, ?_⟩
    have a1 := verdictCount_two_le rt pair[0]? pair[1]? (fetched first)
    have a2 := verdictCount_le rt pair[1]? pair[0]? "sent-from" (fetched second)
    omega

/-! ## C11 -/

/-- C11 (the claim fails): the native transfer of scenario A, returned in the
histories of both addresses, is counted once by each loop, and both loops count it
under `send-to`; the pair ends with `send-to` equal to 2, not 1. -/
theorem scenarioA_both_histories_counts_two :
    analyzePair scenarioRuntime scenarioPair (.ok [scenarioNativeTx]) (.ok [scenarioNativeTx])
      "send-to" = some (.num 2) ∧
    analyzePair scenarioRuntime scenarioPair (.ok [scenarioNativeTx]) (.ok [scenarioNativeTx])
      "sent-from" = some (.num 0) ∧
    bucketOf (analyzePair scenarioRuntime scenarioPair (.ok [scenarioNativeTx])
      (.ok [scenarioNativeTx])) = .Partial := by
  decide

/-- C11 (amended): for non-empty addresses `A` and `B` that differ
case-insensitively and one native transfer from `A` to `B`, the pair `(A, B)` ends
with `send-to` 1 and `sent-from` 0 when the transfer is in the history of `A`
only, with `send-to` 2 and `sent-from` 0 when it is in both histories, and in the
Partial bucket in both cases. -/
theorem scenarioA_counts (rt : Runtime) (tx : Transaction) (A B : String)
    (hf : tx.from_ = some A) (ht : tx.to_ = some B) (hA : A ≠ "") (hB : B ≠ "")
    (hAB : rt.toLowerCase A ≠ rt.toLowerCase B) :
    analyzePair rt [A, B] (.ok [tx]) (.ok []) "send-to" = some (.num 1) ∧
    analyzePair rt [A, B] (.ok [tx]) (.ok []) "sent-from" = some (.num 0) ∧
    bucketOf (analyzePair rt [A, B] (.ok [tx]) (.ok [])) = .Partial ∧
    analyzePair rt [A, B] (.ok [tx]) (.ok [tx]) "send-to" = some (.num 2) ∧
    analyzePair rt [A, B] (.ok [tx]) (.ok [tx]) "sent-from" = some (.num 0) ∧
    bucketOf (analyzePair rt [A, B] (.ok [tx]) (.ok [tx])) = .Partial := by
  have tA : truthy (some A) = true := by simp [truthy, hA]
  have tB : truthy (some B) = true := by simp [truthy, hB]
  have tf : truthy tx.from_ = true := by simp [hf, truthy, hA]
  have tt : truthy tx.to_ = true := by simp [ht, truthy, hB]
  have h1 : analyzeTransaction rt tx (some A) (some B) = .ok (some "send-to") := by
    rw [analyzeTransaction_present rt tx _ _ tA tB tf tt, hf, ht, checkAddresses_strings]
    simp [tryCatch]
  have h2 : analyzeTransaction rt tx (some B) (some A) = .ok (some "sent-from") := by
    rw [analyzeTransaction_present rt tx _ _ tB tA tf tt, hf, ht, checkAddresses_strings]
    simp [tryCatch, Ne.symm hAB]
  have e0 : ([A, B] : List String)[0]? = some A := rfl
  have e1 : ([A, B] : List String)[1]? = some B := rfl
  have a1 : analyzePair rt [A, B] (.ok [tx]) (.ok []) = Analysis.init.increment "send-to" := by
    simp only [analyzePair, primaryLoop, secondaryLoop, e0, e1, h1]
  have a2 : analyzePair rt [A, B] (.ok [tx]) (.ok [tx]) =
      (Analysis.init.increment "send-to").increment "send-to" := by
    simp only [analyzePair, primaryLoop, secondaryLoop, e0, e1, h1, h2]
    rfl
  rw [a1, a2]
  decide

/-- C11 (amended), at scenario A itself. -/
theorem scenarioA_counts_witness :
    analyzePair scenarioRuntime [address1, address2] (.ok [scenarioNativeTx]) (.ok [])
      "send-to" = some (.num 1) ∧
    analyzePair scenarioRuntime [address1, address2] (.ok [scenarioNativeTx]) (.ok [])
      "sent-from" = some (.num 0) ∧
    bucketOf (analyzePair scenarioRuntime [address1, address2] (.ok [scenarioNativeTx])
      (.ok [])) = .Partial ∧
    analyzePair scenarioRuntime [address1, address2] (.ok [scenarioNativeTx])
      (.ok [scenarioNativeTx]) "send-to" = some (.num 2) ∧
    analyzePair scenarioRuntime [address1, address2] (.ok [scenarioNativeTx])
      (.ok [scenarioNativeTx]) "sent-from" = some (.num 0) ∧
    bucketOf (analyzePair scenarioRuntime [address1, address2] (.ok [scenarioNativeTx])
      (.ok [scenarioNativeTx])) = .Partial :=
  scenarioA_counts scenarioRuntime scenarioNativeTx address1 address2 rfl rfl
    (by decide) (by decide) (by decide)

/-! ## C12 -/

/-- C12: for every pair, when neither history holds a transaction the loop ends
with `send-to` 0 and `sent-from` 0 and the pair goes to the Fail bucket; `main`
pushes such a pair on `failPairs`. -/
theorem scenarioC_no_transactions (rt : Runtime) (pair : List String) :
    analyzePair rt pair (.ok []) (.ok []) "send-to" = some (.num 0) ∧
    analyzePair rt pair (.ok []) (.ok []) "sent-from" = some (.num 0) ∧
    bucketOf (analyzePair rt pair (.ok []) (.ok [])) = .Fail ∧
    main rt (fun _ => .ok []) [pair] = ⟨[], [], [pair]⟩ := by
  have h : analyzePair rt pair (.ok []) (.ok []) = Analysis.init := rfl
  have hb : bucketOfPair rt (fun _ => .ok []) pair = .Fail := by
    simp only [bucketOfPair, h]
    decide
  refine ⟨by rw [h]; decide, by rw [h]; decide, by rw [h]; decide, ?_⟩
  simp only [main, mainLoop, hb, Output.push, List.nil_append]

/-! ## Facts about the three blocks -/

theorem checkAddresses_absent (rt : Runtime) (a b f t : Option String) (type : String)
    (h : f = none ∨ t = none) : tryCatch (checkAddresses rt a b f t type) = none := by
  rcases a with _ | a <;> rcases b with _ | b <;> rcases f with _ | f <;> rcases t with _ | t <;>
    simp only [checkAddresses, jsAnd, strictEq, lower, bind, Except.bind, pure, Except.pure,
      throw, throwThe, MonadExceptOf.throw, tryCatch] <;>
    first
      | rfl
      | (split_ifs <;> rfl)
      | (simp at h)

theorem decodeFails_erc1155 (rt : Runtime) (tx : Transaction) (a b : Option String)
    (h : decodeFails rt.erc1155Interface ["safeTransferFrom", "safeBatchTransferFrom"]
      ["_from", "_to"] tx = true) :
    tryCatch (erc1155Block rt tx a b) = none := by
  rw [erc1155Block_eq_event]
  unfold erc1155Event
  unfold decodeFails at h
  rcases hd : decodeRecognized rt.erc1155Interface ["safeTransferFrom", "safeBatchTransferFrom"] tx with _ | d
  · rfl
  · rw [hd] at h
    simp only [List.any_cons, List.any_nil, Bool.or_false, Bool.or_eq_true,
      Option.isNone_iff_eq_none] at h
    exact checkAddresses_absent rt a b _ _ _ h

theorem decodeFails_erc20 (rt : Runtime) (tx : Transaction) (a b : Option String)
    (h : decodeFails rt.erc20Interface ["transfer", "transferFrom"] ["recipient"] tx = true) :
    tryCatch (erc20Block rt tx a b) = none := by
  rw [erc20Block_eq_event]
  unfold erc20Event
  unfold decodeFails at h
  rcases hd : decodeRecognized rt.erc20Interface ["transfer", "transferFrom"] tx with _ | d
  · rfl
  · rw [hd] at h
    simp only [List.any_cons, List.any_nil, Bool.or_false, Option.isNone_iff_eq_none] at h
    exact checkAddresses_absent rt a b _ _ _ (Or.inr h)

theorem decodeFails_erc721 (rt : Runtime) (tx : Transaction) (a b : Option String)
    (h : decodeFails rt.erc721Interface ["transferFrom", "safeTransferFrom"] ["from", "to"] tx =
      true) :
    tryCatch (erc721Block rt tx a b) = none := by
  rw [erc721Block_eq_event]
  unfold erc721Event
  unfold decodeFails at h
  rcases hd : decodeRecognized rt.erc721Interface ["transferFrom", "safeTransferFrom"] tx with _ | d
  · rfl
  · rw [hd] at h
    simp only [List.any_cons, List.any_nil, Bool.or_false, Bool.or_eq_true,
      Option.isNone_iff_eq_none] at h
    exact checkAddresses_absent rt a b _ _ _ h

theorem noDecode_erc1155 (rt : Runtime) (tx : Transaction) (a b : Option String)
    (h : decodeRecognized rt.erc1155Interface ["safeTransferFrom", "safeBatchTransferFrom"] tx =
      none) :
    tryCatch (erc1155Block rt tx a b) = none := by
  rw [erc1155Block_eq_event, erc1155Event, h]
  rfl

theorem noDecode_erc721 (rt : Runtime) (tx : Transaction) (a b : Option String)
    (h : decodeRecognized rt.erc721Interface ["transferFrom", "safeTransferFrom"] tx = none) :
    tryCatch (erc721Block rt tx a b) = none := by
  rw [erc721Block_eq_event, erc721Event, h]
  rfl

theorem erc1155Block_decoded (rt : Runtime) (tx : Transaction) (a b : Option String)
    (d : TransactionDescription)
    (hd : rt.erc1155Interface.parseTransaction tx.data tx.value = .ok (some d))
    (hname : d.name = "safeTransferFrom" ∨ d.name = "safeBatchTransferFrom") :
    erc1155Block rt tx a b = checkAddresses rt a b (d.args "_from") (d.args "_to") "1155" := by
  simp only [erc1155Block, hd, bind, Except.bind, if_pos hname]

theorem erc20Block_decoded (rt : Runtime) (tx : Transaction) (a b : Option String)
    (d : TransactionDescription)
    (hd : rt.erc20Interface.parseTransaction tx.data tx.value = .ok (some d))
    (hname : d.name = "transfer" ∨ d.name = "transferFrom") :
    erc20Block rt tx a b =
      checkAddresses rt a b (jsOr (d.args "sender") a) (d.args "recipient") "20" := by
  simp only [erc20Block, hd, bind, Except.bind, if_pos hname]

theorem truthy_some {s : String} (h : s ≠ "") : truthy (some s) = true := by
  simp [truthy, h]

/-- The result of `analyzeTransaction` when the native check gives no verdict. -/
theorem analyzeTransaction_no_native (rt : Runtime) (tx : Transaction) (a b : Option String)
    (ha : truthy a = true) (hb : truthy b = true)
    (hf : truthy tx.from_ = true) (ht : truthy tx.to_ = true)
    (hnative : checkAddresses rt a b tx.from_ tx.to_ "ETH" = .ok none) :
    analyzeTransaction rt tx a b = .ok (tokenCascade rt tx a b) := by
  rw [analyzeTransaction_present rt tx a b ha hb hf ht, hnative]
  rfl

/-! ## C13 -/

/-- C13: with `from`, `to`, observer and other present, a verdict of the native
check is the result of `analyzeTransaction` whatever `tx.data` and the interfaces
are; and when the native check gives none, a transaction whose data decodes as
ERC-1155 `safeTransferFrom` with `_from` equal to the observer and `_to` equal to
the other address, up to letter case, yields `send-to`. -/
theorem native_check_comes_first (rt : Runtime) (tx : Transaction) (observer other : String)
    (ho : observer ≠ "") (hp : other ≠ "")
    (hf : truthy tx.from_ = true) (ht : truthy tx.to_ = true) :
    (∀ v, checkAddresses rt (some observer) (some other) tx.from_ tx.to_ "ETH" = .ok (some v) →
      analyzeTransaction rt tx (some observer) (some other) = .ok (some v)) ∧
    (checkAddresses rt (some observer) (some other) tx.from_ tx.to_ "ETH" = .ok none →
      ∀ (d : TransactionDescription) (f t : String),
        rt.erc1155Interface.parseTransaction tx.data tx.value = .ok (some d) →
        d.name = "safeTransferFrom" → d.args "_from" = some f → d.args "_to" = some t →
        rt.toLowerCase f = rt.toLowerCase observer → rt.toLowerCase t = rt.toLowerCase other →
        analyzeTransaction rt tx (some observer) (some other) = .ok (some "send-to")) := by
  constructor
  · intro v hv
    rw [analyzeTransaction_present rt tx _ _ (truthy_some ho) (truthy_some hp) hf ht, hv]
    rfl
  · intro hnative d f t hd hname hfrom hto h1 h2
    rw [analyzeTransaction_no_native rt tx _ _ (truthy_some ho) (truthy_some hp) hf ht hnative]
    have hb : tryCatch (erc1155Block rt tx (some observer) (some other)) = some "send-to" := by
      rw [erc1155Block_decoded rt tx _ _ d hd (Or.inl hname), hfrom, hto, checkAddresses_strings]
      simp [h1, h2, tryCatch]
    simp only [tokenCascade, hb]

/-- C13, at a transaction relayed by a third party whose data decodes as ERC-1155
`safeTransferFrom` from `0xAAAA` to `0xBBBB`, for the pair `0xaaaa`, `0xbbbb`. -/
theorem native_check_comes_first_witness :
    analyzeTransaction erc1155Runtime relayedTx (some "0xaaaa") (some "0xbbbb") =
      .ok (some "send-to") :=
  (native_check_comes_first erc1155Runtime relayedTx "0xaaaa" "0xbbbb"
    (by decide) (by decide) (by decide) (by decide)).2 (by decide)
    ⟨"safeTransferFrom", fun key => [("_from", "0xAAAA"), ("_to", "0xBBBB")].lookup key⟩
    "0xAAAA" "0xBBBB" rfl rfl rfl rfl (by decide) (by decide)

/-! ## C14 -/

/-- C14 (the claim fails): the token transfer of scenario B, seen from `address2`,
has no native verdict, its data decodes under neither the ERC-1155 nor the ERC-721
interface, and its ERC-20 decode lacks the sender argument, so all three standards
are non-matches when a missing `from` field counts as one; yet `analyzeTransaction`
puts the observer in place of the missing sender and returns `send-to`, not
`false`. -/
theorem absent_sender_is_not_a_non_match :
    truthy scenarioTokenTx.from_ = true ∧ truthy scenarioTokenTx.to_ = true ∧
    checkAddresses scenarioRuntime (some address2) (some address1)
      scenarioTokenTx.from_ scenarioTokenTx.to_ "ETH" = .ok none ∧
    decodeFails scenarioRuntime.erc1155Interface ["safeTransferFrom", "safeBatchTransferFrom"]
      ["_from", "_to"] scenarioTokenTx = true ∧
    decodeFails scenarioRuntime.erc20Interface ["transfer", "transferFrom"]
      ["sender", "recipient"] scenarioTokenTx = true ∧
    decodeFails scenarioRuntime.erc721Interface ["transferFrom", "safeTransferFrom"]
      ["from", "to"] scenarioTokenTx = true ∧
    analyzeTransaction scenarioRuntime scenarioTokenTx (some address2) (some address1) =
      .ok (some "send-to") ∧
    analyzeTransaction scenarioRuntime scenarioTokenTx (some address2) (some address1) ≠
      .ok none := by
  decide

/-- C14 (amended): with the four addresses present and no native verdict,
`analyzeTransaction` never throws; a standard whose decode throws, returns `null`,
has an unrecognized name or lacks a required address argument (`_from` or `_to` for
ERC-1155, `recipient` for ERC-20, `from` or `to` for ERC-721) contributes nothing,
and the result is that of the standards that follow; when all three miss, the
result is `false`. A missing ERC-20 `sender` is not among the misses. -/
theorem decode_failure_is_non_match (rt : Runtime) (tx : Transaction)
    (observer other : Option String)
    (ho : truthy observer = true) (hp : truthy other = true)
    (hf : truthy tx.from_ = true) (ht : truthy tx.to_ = true)
    (hnative : checkAddresses rt observer other tx.from_ tx.to_ "ETH" = .ok none) :
    (∃ r, analyzeTransaction rt tx observer other = .ok r) ∧
    (decodeFails rt.erc1155Interface ["safeTransferFrom", "safeBatchTransferFrom"]
        ["_from", "_to"] tx = true →
      tryCatch (erc1155Block rt tx observer other) = none ∧
      analyzeTransaction rt tx observer other =
        .ok (match tryCatch (erc20Block rt tx observer other) with
             | some r => some r
             | none => tryCatch (erc721Block rt tx observer other))) ∧
    (decodeFails rt.erc20Interface ["transfer", "transferFrom"] ["recipient"] tx = true →
      tryCatch (erc20Block rt tx observer other) = none ∧
      analyzeTransaction rt tx observer other =
        .ok (match tryCatch (erc1155Block rt tx observer other) with
             | some r => some r
             | none => tryCatch (erc721Block rt tx observer other))) ∧
    (decodeFails rt.erc721Interface ["transferFrom", "safeTransferFrom"] ["from", "to"] tx =
        true →
      tryCatch (erc721Block rt tx observer other) = none) ∧
    (decodeFails rt.erc1155Interface ["safeTransferFrom", "safeBatchTransferFrom"]
        ["_from", "_to"] tx = true →
      decodeFails rt.erc20Interface ["transfer", "transferFrom"] ["recipient"] tx = true →
      decodeFails rt.erc721Interface ["transferFrom", "safeTransferFrom"] ["from", "to"] tx =
        true →
      analyzeTransaction rt tx observer other = .ok none) := by
  have hres := analyzeTransaction_no_native rt tx observer other ho hp hf ht hnative
  refine ⟨⟨_, hres⟩, ?_, ?_, ?_, ?_⟩
  · intro h1
    have e1 := decodeFails_erc1155 rt tx observer other h1
    refine ⟨e1, ?_⟩
    rw [hres]
    simp only [tokenCascade, e1]
  · intro h2
    have e2 := decodeFails_erc20 rt tx observer other h2
    refine ⟨e2, ?_⟩
    rw [hres]
    simp only [tokenCascade, e2]
  · intro h3
    exact decodeFails_erc721 rt tx observer other h3
  · intro h1 h2 h3
    rw [hres]
    simp only [tokenCascade, decodeFails_erc1155 rt tx observer other h1,
      decodeFails_erc20 rt tx observer other h2, decodeFails_erc721 rt tx observer other h3]

/-- C14 (amended), at a transaction whose ERC-1155 decode lacks `_to`, whose ERC-20
decode has an unrecognized name and whose ERC-721 decode throws. -/
theorem decode_failure_is_non_match_witness :
    analyzeTransaction failingRuntime collidingTx (some "0xAAaa") (some "0xBBbb") = .ok none :=
  (decode_failure_is_non_match failingRuntime collidingTx (some "0xAAaa") (some "0xBBbb")
    (by decide) (by decide) (by decide) (by decide) (by decide)).2.2.2.2
    (by decide) (by decide) (by decide)

/-! ## C15 -/

/-- C15: with the four addresses present, no native verdict and no ERC-1155
verdict, a transaction whose data decodes under the ERC-20 interface as `transfer`
or `transferFrom` is classified with the decoded sender as `from` when that
argument is present and the observer otherwise, and the decoded recipient as `to`;
so an ERC-20 `transfer` without sender whose recipient is the other address, up to
letter case, yields `send-to`. -/
theorem erc20_sender_defaults_to_observer (rt : Runtime) (tx : Transaction)
    (observer other : String) (ho : observer ≠ "") (hp : other ≠ "")
    (hf : truthy tx.from_ = true) (ht : truthy tx.to_ = true)
    (hnative : checkAddresses rt (some observer) (some other) tx.from_ tx.to_ "ETH" = .ok none)
    (h1155 : tryCatch (erc1155Block rt tx (some observer) (some other)) = none)
    (d : TransactionDescription)
    (hd : rt.erc20Interface.parseTransaction tx.data tx.value = .ok (some d))
    (hname : d.name = "transfer" ∨ d.name = "transferFrom") :
    analyzeTransaction rt tx (some observer) (some other) =
      .ok (match tryCatch (checkAddresses rt (some observer) (some other)
              (if truthy (d.args "sender") then d.args "sender" else some observer)
              (d.args "recipient") "20") with
           | some r => some r
           | none => tryCatch (erc721Block rt tx (some observer) (some other))) ∧
    (d.name = "transfer" → d.args "sender" = none →
      ∀ r, d.args "recipient" = some r → rt.toLowerCase r = rt.toLowerCase other →
        analyzeTransaction rt tx (some observer) (some other) = .ok (some "send-to")) := by
  have hres := analyzeTransaction_no_native rt tx _ _ (truthy_some ho) (truthy_some hp) hf ht
    hnative
  have hb := erc20Block_decoded rt tx (some observer) (some other) d hd hname
  have hmain : analyzeTransaction rt tx (some observer) (some other) =
      .ok (match tryCatch (checkAddresses rt (some observer) (some other)
              (if truthy (d.args "sender") then d.args "sender" else some observer)
              (d.args "recipient") "20") with
           | some r => some r
           | none => tryCatch (erc721Block rt tx (some observer) (some other))) := by
    rw [hres]
    simp only [tokenCascade, h1155, hb, jsOr]
  refine ⟨hmain, ?_⟩
  intro _ hsender r hr hlc
  rw [hmain, hsender, hr]
  simp only [truthy, Bool.false_eq_true, if_false, checkAddresses_strings]
  simp [hlc, tryCatch]

/-- C15, at the token transfer of scenario B seen from `address2`. -/
theorem erc20_sender_defaults_to_observer_witness :
    analyzeTransaction scenarioRuntime scenarioTokenTx (some address2) (some address1) =
      .ok (some "send-to") :=
  (erc20_sender_defaults_to_observer scenarioRuntime scenarioTokenTx address2 address1
    (by decide) (by decide) (by decide) (by decide) (by decide) (by decide)
    ⟨"transfer", fun key => [("recipient", address1)].lookup key⟩ rfl (Or.inl rfl)).2
    rfl rfl address1 rfl rfl

/-! ## C16 -/

theorem lower_sameCase (rt : Runtime) {a b : Option String} (h : SameUpToCase rt a b) :
    lower rt a = lower rt b := by
  rcases a with _ | x <;> rcases b with _ | y <;> simp only [SameUpToCase] at h
  · rfl
  · simp only [lower, h.1]

theorem truthy_sameCase (rt : Runtime) {a b : Option String} (h : SameUpToCase rt a b) :
    truthy a = truthy b := by
  rcases a with _ | x <;> rcases b with _ | y <;> simp only [SameUpToCase] at h
  · rfl
  · simp only [truthy, ne_eq, h.2]

theorem jsOr_sameCase (rt : Runtime) {s s2 a a2 : Option String} (hs : SameUpToCase rt s s2)
    (ha : SameUpToCase rt a a2) : SameUpToCase rt (jsOr s a) (jsOr s2 a2) := by
  unfold jsOr
  rw [truthy_sameCase rt hs]
  split_ifs
  · exact hs
  · exact ha

theorem checkAddresses_sameCase (rt : Runtime) {a a2 b b2 f f2 t t2 : Option String}
    (type type2 : String) (ha : SameUpToCase rt a a2) (hb : SameUpToCase rt b b2)
    (hf : SameUpToCase rt f f2) (ht : SameUpToCase rt t t2) :
    checkAddresses rt a b f t type = checkAddresses rt a2 b2 f2 t2 type2 := by
  unfold checkAddresses
  rw [lower_sameCase rt ha, lower_sameCase rt hb, lower_sameCase rt hf, lower_sameCase rt ht]

theorem checkAddresses_runtime (rt rt2 : Runtime) (hlc : rt2.toLowerCase = rt.toLowerCase)
    (a b f t : Option String) (type : String) :
    checkAddresses rt2 a b f t type = checkAddresses rt a b f t type := by
  have hl : ∀ x, lower rt2 x = lower rt x := by
    intro x
    cases x <;> simp only [lower, hlc]
  unfold checkAddresses
  simp only [hl]

theorem erc1155Block_sameCase (rt rt2 : Runtime) (tx tx2 : Transaction)
    {a a2 b b2 : Option String} (hlc : rt2.toLowerCase = rt.toLowerCase)
    (ha : SameUpToCase rt a a2) (hb : SameUpToCase rt b b2)
    (hdec : SameDecode rt (rt.erc1155Interface.parseTransaction tx.data tx.value)
      (rt2.erc1155Interface.parseTransaction tx2.data tx2.value)) :
    erc1155Block rt tx a b = erc1155Block rt2 tx2 a2 b2 := by
  unfold erc1155Block
  revert hdec
  generalize rt.erc1155Interface.parseTransaction tx.data tx.value = p
  generalize rt2.erc1155Interface.parseTransaction tx2.data tx2.value = q
  intro hdec
  rcases p with e | _ | d <;> rcases q with e2 | _ | d2 <;> simp only [SameDecode] at hdec
  · rfl
  · rfl
  · obtain ⟨hn, hargs⟩ := hdec
    simp only [bind, Except.bind, hn]
    split_ifs
    · rw [checkAddresses_runtime rt rt2 hlc]
      exact checkAddresses_sameCase rt _ _ ha hb (hargs _) (hargs _)
    · rfl

theorem erc20Block_sameCase (rt rt2 : Runtime) (tx tx2 : Transaction)
    {a a2 b b2 : Option String} (hlc : rt2.toLowerCase = rt.toLowerCase)
    (ha : SameUpToCase rt a a2) (hb : SameUpToCase rt b b2)
    (hdec : SameDecode rt (rt.erc20Interface.parseTransaction tx.data tx.value)
      (rt2.erc20Interface.parseTransaction tx2.data tx2.value)) :
    erc20Block rt tx a b = erc20Block rt2 tx2 a2 b2 := by
  unfold erc20Block
  revert hdec
  generalize rt.erc20Interface.parseTransaction tx.data tx.value = p
  generalize rt2.erc20Interface.parseTransaction tx2.data tx2.value = q
  intro hdec
  rcases p with e | _ | d <;> rcases q with e2 | _ | d2 <;> simp only [SameDecode] at hdec
  · rfl
  · rfl
  · obtain ⟨hn, hargs⟩ := hdec
    simp only [bind, Except.bind, hn]
    split_ifs
    · rw [checkAddresses_runtime rt rt2 hlc]
      exact checkAddresses_sameCase rt _ _ ha hb (jsOr_sameCase rt (hargs _) ha) (hargs _)
    · rfl

theorem erc721Block_sameCase (rt rt2 : Runtime) (tx tx2 : Transaction)
    {a a2 b b2 : Option String} (hlc : rt2.toLowerCase = rt.toLowerCase)
    (ha : SameUpToCase rt a a2) (hb : SameUpToCase rt b b2)
    (hdec : SameDecode rt (rt.erc721Interface.parseTransaction tx.data tx.value)
      (rt2.erc721Interface.parseTransaction tx2.data tx2.value)) :
    erc721Block rt tx a b = erc721Block rt2 tx2 a2 b2 := by
  unfold erc721Block
  revert hdec
  generalize rt.erc721Interface.parseTransaction tx.data tx.value = p
  generalize rt2.erc721Interface.parseTransaction tx2.data tx2.value = q
  intro hdec
  rcases p with e | _ | d <;> rcases q with e2 | _ | d2 <;> simp only [SameDecode] at hdec
  · rfl
  · rfl
  · obtain ⟨hn, hargs⟩ := hdec
    simp only [bind, Except.bind, hn]
    split_ifs
    · rw [checkAddresses_runtime rt rt2 hlc]
      exact checkAddresses_sameCase rt _ _ ha hb (hargs _) (hargs _)
    · rfl

/-- C16: the verdict of `analyzeTransaction` is the same for two calls that differ
at most in the letter case of the observer, of the other address, of `tx.from`, of
`tx.to` and of the arguments decoded from `tx.data` under each of the three
interfaces. -/
theorem verdict_ignores_letter_case (rt rt2 : Runtime) (tx tx2 : Transaction)
    (observer observer2 other other2 : Option String)
    (hlc : rt2.toLowerCase = rt.toLowerCase)
    (hobs : SameUpToCase rt observer observer2) (hoth : SameUpToCase rt other other2)
    (hfrom : SameUpToCase rt tx.from_ tx2.from_) (hto : SameUpToCase rt tx.to_ tx2.to_)
    (h1155 : SameDecode rt (rt.erc1155Interface.parseTransaction tx.data tx.value)
      (rt2.erc1155Interface.parseTransaction tx2.data tx2.value))
    (h20 : SameDecode rt (rt.erc20Interface.parseTransaction tx.data tx.value)
      (rt2.erc20Interface.parseTransaction tx2.data tx2.value))
    (h721 : SameDecode rt (rt.erc721Interface.parseTransaction tx.data tx.value)
      (rt2.erc721Interface.parseTransaction tx2.data tx2.value)) :
    analyzeTransaction rt tx observer other = analyzeTransaction rt2 tx2 observer2 other2 := by
  unfold analyzeTransaction
  rw [truthy_sameCase rt hobs, truthy_sameCase rt hoth, truthy_sameCase rt hfrom,
    truthy_sameCase rt hto, erc1155Block_sameCase rt rt2 tx tx2 hlc hobs hoth h1155,
    erc20Block_sameCase rt rt2 tx tx2 hlc hobs hoth h20,
    erc721Block_sameCase rt rt2 tx tx2 hlc hobs hoth h721,
    checkAddresses_sameCase rt "ETH" "ETH" hobs hoth hfrom hto,
    checkAddresses_runtime rt rt2 hlc]

theorem lookup_sameCase (rt : Runtime) (key : String) :
    ∀ (l1 l2 : List (String × String)),
      List.Forall₂ (fun p q => p.1 = q.1 ∧ SameUpToCase rt (some p.2) (some q.2)) l1 l2 →
      SameUpToCase rt (l1.lookup key) (l2.lookup key) := by
  intro l1
  induction l1 with
  | nil =>
    intro l2 h
    cases h
    simp [List.lookup, SameUpToCase]
  | cons p r ih =>
    intro l2 h
    rcases l2 with _ | ⟨q, r2⟩
    · cases h
    · rw [List.forall₂_cons] at h
      obtain ⟨⟨hk, hv⟩, hrest⟩ := h
      obtain ⟨k1, v1⟩ := p
      obtain ⟨k2, v2⟩ := q
      simp only at hk hv
      subst hk
      simp only [List.lookup]
      cases key == k1
      · exact ih r2 hrest
      · exact hv

/-- C16, at a relayed ERC-1155 transfer: the observer, the other address, the two
transaction addresses and the two decoded addresses all change their letter case. -/
theorem verdict_ignores_letter_case_witness :
    analyzeTransaction erc1155Runtime relayedTx (some "0xAAaa") (some "0xBBbb") =
      analyzeTransaction erc1155LowerRuntime relayedLowerTx (some "0xaaaa") (some "0xbbbb") :=
  verdict_ignores_letter_case erc1155Runtime erc1155LowerRuntime relayedTx relayedLowerTx
    (some "0xAAaa") (some "0xaaaa") (some "0xBBbb") (some "0xbbbb") rfl
    (show _ ∧ _ from by decide) (show _ ∧ _ from by decide)
    (show _ ∧ _ from by decide) (show _ ∧ _ from by decide)
    (show SameDecode erc1155Runtime
        (.ok (some ⟨"safeTransferFrom",
          fun key => [("_from", "0xAAAA"), ("_to", "0xBBBB")].lookup key⟩))
        (.ok (some ⟨"safeTransferFrom",
          fun key => [("_from", "0xaaaa"), ("_to", "0xbbbb")].lookup key⟩)) from
      ⟨rfl, fun key => lookup_sameCase erc1155Runtime key _ _
        (.cons ⟨rfl, show _ ∧ _ from by decide⟩
          (.cons ⟨rfl, show _ ∧ _ from by decide⟩ .nil))⟩)
    trivial trivial

/-! ## C17 -/

/-- C17: when `from` and `to` differ case-insensitively, the `send-to` condition
and the `sent-from` condition of `checkAddresses` cannot both hold, and testing
them in the other order gives the same result. -/
theorem checkAddresses_order_irrelevant (rt : Runtime) (observer other from_ to_ type : String)
    (h : rt.toLowerCase from_ ≠ rt.toLowerCase to_) :
    ¬ ((rt.toLowerCase from_ = rt.toLowerCase observer ∧
          rt.toLowerCase to_ = rt.toLowerCase other) ∧
        (rt.toLowerCase from_ = rt.toLowerCase other ∧
          rt.toLowerCase to_ = rt.toLowerCase observer)) ∧
    checkAddressesReversed rt (some observer) (some other) (some from_) (some to_) type =
      checkAddresses rt (some observer) (some other) (some from_) (some to_) type := by
  constructor
  · rintro ⟨⟨a, -⟩, ⟨-, d⟩⟩
    exact h (a.trans d.symm)
  · simp only [checkAddressesReversed, checkAddresses, jsAnd, strictEq, lower, bind, Except.bind,
      pure, Except.pure]
    split_ifs <;> simp_all

/-- C17, at a transfer from `0xAAaa` to `0xBBbb`. -/
theorem checkAddresses_order_irrelevant_witness :
    ¬ ((asciiLower "0xAAaa" = asciiLower "0xaaaa" ∧ asciiLower "0xBBbb" = asciiLower "0xbbbb") ∧
        (asciiLower "0xAAaa" = asciiLower "0xbbbb" ∧
          asciiLower "0xBBbb" = asciiLower "0xaaaa")) ∧
    checkAddressesReversed nativeRuntime (some "0xaaaa") (some "0xbbbb") (some "0xAAaa")
        (some "0xBBbb") "ETH" =
      checkAddresses nativeRuntime (some "0xaaaa") (some "0xbbbb") (some "0xAAaa")
        (some "0xBBbb") "ETH" :=
  checkAddresses_order_irrelevant nativeRuntime "0xaaaa" "0xbbbb" "0xAAaa" "0xBBbb" "ETH"
    (by decide)

/-! ## C18 -/

theorem direct_verdicts (rt : Runtime) (tx : Transaction) (f t A B : String)
    (hf : tx.from_ = some f) (ht : tx.to_ = some t) (hf0 : f ≠ "") (ht0 : t ≠ "")
    (hA : A ≠ "") (hB : B ≠ "") (hAB : rt.toLowerCase A ≠ rt.toLowerCase B)
    (h1 : rt.toLowerCase f = rt.toLowerCase A) (h2 : rt.toLowerCase t = rt.toLowerCase B) :
    analyzeTransaction rt tx (some A) (some B) = .ok (some "send-to") ∧
    analyzeTransaction rt tx (some B) (some A) = .ok (some "sent-from") := by
  have tf : truthy tx.from_ = true := by rw [hf]; exact truthy_some hf0
  have tt : truthy tx.to_ = true := by rw [ht]; exact truthy_some ht0
  constructor
  · rw [analyzeTransaction_present rt tx _ _ (truthy_some hA) (truthy_some hB) tf tt, hf, ht,
      checkAddresses_strings]
    simp [h1, h2, tryCatch]
  · rw [analyzeTransaction_present rt tx _ _ (truthy_some hB) (truthy_some hA) tf tt, hf, ht,
      checkAddresses_strings]
    simp [h1, h2, tryCatch, Ne.symm hAB]

/-- C18 (the claim fails): the one transfer from `0xAAaa` to `0xBBbb`, present in
both histories of the pair `(0xAAaa, 0xBBbb)`, is counted twice under `send-to`
and not at all under `sent-from`. -/
theorem direct_transfer_not_in_both_counts :
    analyzePair nativeRuntime examplePair (.ok [nativeTx]) (.ok [nativeTx]) "send-to" =
      some (.num 2) ∧
    analyzePair nativeRuntime examplePair (.ok [nativeTx]) (.ok [nativeTx]) "sent-from" =
      some (.num 0) ∧
    positive (analyzePair nativeRuntime examplePair (.ok [nativeTx]) (.ok [nativeTx])
      "sent-from") = false := by
  decide

/-- C18 (amended): for a pair `(A, B)` of non-empty addresses that differ
case-insensitively and one direct transaction present in both histories, both
loops process the transaction and it counts in one direction only: a transfer from
`A` to `B` gives `send-to` 2 and `sent-from` 0, a transfer from `B` to `A` gives
`send-to` 0 and a positive `sent-from`; the pair lands in the Partial bucket. -/
theorem direct_transfer_counts_one_direction (rt : Runtime) (tx : Transaction)
    (f t A B : String) (hf : tx.from_ = some f) (ht : tx.to_ = some t)
    (hf0 : f ≠ "") (ht0 : t ≠ "") (hA : A ≠ "") (hB : B ≠ "")
    (hAB : rt.toLowerCase A ≠ rt.toLowerCase B) :
    (rt.toLowerCase f = rt.toLowerCase A → rt.toLowerCase t = rt.toLowerCase B →
      analyzePair rt [A, B] (.ok [tx]) (.ok [tx]) "send-to" = some (.num 2) ∧
      analyzePair rt [A, B] (.ok [tx]) (.ok [tx]) "sent-from" = some (.num 0) ∧
      bucketOf (analyzePair rt [A, B] (.ok [tx]) (.ok [tx])) = .Partial) ∧
    (rt.toLowerCase f = rt.toLowerCase B → rt.toLowerCase t = rt.toLowerCase A →
      analyzePair rt [A, B] (.ok [tx]) (.ok [tx]) "send-to" = some (.num 0) ∧
      positive (analyzePair rt [A, B] (.ok [tx]) (.ok [tx]) "sent-from") = true ∧
      bucketOf (analyzePair rt [A, B] (.ok [tx]) (.ok [tx])) = .Partial) := by
  have e0 : ([A, B] : List String)[0]? = some A := rfl
  have e1 : ([A, B] : List String)[1]? = some B := rfl
  constructor
  · intro h1 h2
    obtain ⟨v1, v2⟩ := direct_verdicts rt tx f t A B hf ht hf0 ht0 hA hB hAB h1 h2
    have a : analyzePair rt [A, B] (.ok [tx]) (.ok [tx]) =
        (Analysis.init.increment "send-to").increment "send-to" := by
      simp only [analyzePair, primaryLoop, secondaryLoop, e0, e1, v1, v2]
      rfl
    rw [a]
    decide
  · intro h1 h2
    obtain ⟨v1, v2⟩ := direct_verdicts rt tx f t B A hf ht hf0 ht0 hB hA (Ne.symm hAB) h1 h2
    have a : analyzePair rt [A, B] (.ok [tx]) (.ok [tx]) =
        (Analysis.init.increment "sent-from").increment "send-from" := by
      simp only [analyzePair, primaryLoop, secondaryLoop, e0, e1, v1, v2]
      rfl
    rw [a]
    decide

/-- C18 (amended), at the transfer from `0xAAaa` to `0xBBbb`. -/
theorem direct_transfer_counts_one_direction_witness :
    analyzePair nativeRuntime ["0xaaaa", "0xbbbb"] (.ok [nativeTx]) (.ok [nativeTx])
      "send-to" = some (.num 2) ∧
    analyzePair nativeRuntime ["0xaaaa", "0xbbbb"] (.ok [nativeTx]) (.ok [nativeTx])
      "sent-from" = some (.num 0) ∧
    bucketOf (analyzePair nativeRuntime ["0xaaaa", "0xbbbb"] (.ok [nativeTx]) (.ok [nativeTx])) =
      .Partial :=
  (direct_transfer_counts_one_direction nativeRuntime nativeTx "0xAAaa" "0xBBbb"
    "0xaaaa" "0xbbbb" rfl rfl (by decide) (by decide) (by decide) (by decide) (by decide)).1
    (by decide) (by decide)

/-! ## C19 -/

/-- C19: the `sent-from` count that bucketing reads is the number of `sent-from`
verdicts in the history of the primary address; two runs that differ only in the
outcome of the fetch for the secondary address, a failed fetch included, end with
the same `sent-from` count. -/
theorem sentFrom_independent_of_secondary (rt : Runtime) (pair : List String)
    (first second second2 : Throws (List Transaction)) :
    analyzePair rt pair first second "sent-from" =
      some (.num (verdictCount rt pair[0]? pair[1]? "sent-from" (fetched first))) ∧
    analyzePair rt pair first second "sent-from" =
      analyzePair rt pair first second2 "sent-from" := by
  have h1 := (analyzePair_counts rt pair first second).2
  have h2 := (analyzePair_counts rt pair first second2).2
  exact ⟨h1, h1.trans h2.symm⟩

/-! ## C20 -/

/-- C20: for non-empty observer and other that differ case-insensitively and a
transaction with `from` and `to` present, no native verdict, and data that only
the ERC-20 interface decodes, as `transfer` without a sender argument, the result
of `analyzeTransaction` is `send-to` when the decoded recipient is the other
address up to letter case and `false` otherwise; it is never `sent-from`. -/
theorem erc20_transfer_never_sentFrom (rt : Runtime) (tx : Transaction) (observer other : String)
    (ho : observer ≠ "") (hp : other ≠ "")
    (hne : rt.toLowerCase observer ≠ rt.toLowerCase other)
    (hf : truthy tx.from_ = true) (ht : truthy tx.to_ = true)
    (hnative : checkAddresses rt (some observer) (some other) tx.from_ tx.to_ "ETH" = .ok none)
    (h1155 : decodeRecognized rt.erc1155Interface ["safeTransferFrom", "safeBatchTransferFrom"]
      tx = none)
    (h721 : decodeRecognized rt.erc721Interface ["transferFrom", "safeTransferFrom"] tx = none)
    (d : TransactionDescription)
    (hd : rt.erc20Interface.parseTransaction tx.data tx.value = .ok (some d))
    (hname : d.name = "transfer") (hsender : d.args "sender" = none) :
    analyzeTransaction rt tx (some observer) (some other) ≠ .ok (some "sent-from") ∧
    analyzeTransaction rt tx (some observer) (some other) =
      .ok (match d.args "recipient" with
           | some r => if rt.toLowerCase r = rt.toLowerCase other then some "send-to" else none
           | none => none) := by
  have hres := analyzeTransaction_no_native rt tx _ _ (truthy_some ho) (truthy_some hp) hf ht
    hnative
  have hb := erc20Block_decoded rt tx (some observer) (some other) d hd (Or.inl hname)
  have hmain : analyzeTransaction rt tx (some observer) (some other) =
      .ok (match d.args "recipient" with
           | some r => if rt.toLowerCase r = rt.toLowerCase other then some "send-to" else none
           | none => none) := by
    rw [hres]
    simp only [tokenCascade, noDecode_erc1155 rt tx _ _ h1155, noDecode_erc721 rt tx _ _ h721,
      hb, hsender, jsOr, truthy, Bool.false_eq_true, if_false]
    rcases hr : d.args "recipient" with _ | r
    · rw [checkAddresses_absent rt _ _ _ _ _ (Or.inr rfl)]
    · rw [checkAddresses_strings]
      by_cases hc : rt.toLowerCase r = rt.toLowerCase other
      · simp [hc, tryCatch]
      · have hc2 : ¬ rt.toLowerCase other = rt.toLowerCase r := fun e => hc e.symm
        have hne2 : ¬ rt.toLowerCase other = rt.toLowerCase observer := fun e => hne e.symm
        simp [hc, hc2, hne2, tryCatch]
  refine ⟨?_, hmain⟩
  rw [hmain]
  rcases d.args "recipient" with _ | r
  · simp
  · simp only []
    split_ifs <;> simp

/-- C20, at the token transfer of scenario B seen from `address2`. -/
theorem erc20_transfer_never_sentFrom_witness :
    analyzeTransaction scenarioRuntime scenarioTokenTx (some address2) (some address1) ≠
      .ok (some "sent-from") ∧
    analyzeTransaction scenarioRuntime scenarioTokenTx (some address2) (some address1) =
      .ok (match ([("recipient", address1)] : List (String × String)).lookup "recipient" with
           | some r => if asciiLower r = asciiLower address1 then some "send-to" else none
           | none => none) :=
  erc20_transfer_never_sentFrom scenarioRuntime scenarioTokenTx address2 address1
    (by decide) (by decide) (by decide) (by decide) (by decide) (by decide) rfl rfl
    ⟨"transfer", fun key => [("recipient", address1)].lookup key⟩ rfl rfl rfl

end WalletOwnership
